import Mathlib

/-!
# Order service: the order-creation workflow and the order status update

A shallow embedding of `order-service/grpc/server.go` together with the
records of `order-service/models/order.go`; the user service and the menu
service follow further down, each over its own record store.

* Go machine integers are natural numbers; a conversion to a narrower type is
  an explicit remainder (`uint32`, `uint`).
* A `float64` is carried as its bit pattern: the handlers only copy prices;
  a price read from a row is the value its column gives back
  (`gorm.columnValue`).
* A handler `func (s *OrderServer) H(ctx, req) (*Resp, error)` becomes a
  function from the server, the world (state of the peer services and of the
  record store) and the request to the new world and an `Outcome`.
* The peer services are reached through client interfaces whose calls thread
  an arbitrary peer state, so a peer may answer differently at every call.
* The record store behind `database.DB` (gorm over a relational database) is
  an external collaborator; it is modelled as an in-memory table of order
  aggregates with an id sequence and a schedule of statement failures.
-/

set_option autoImplicit false

namespace OrderService

/-! ## Go base types -/

/-- Conversion of an unsigned integer to Go `uint32`. -/
def uint32 (n : Nat) : Nat := n % 2 ^ 32

/-- Conversion of an unsigned integer to Go `uint` (64 bits wide). -/
def uint (n : Nat) : Nat := n % 2 ^ 64

/-- The text of a Go `error` value, as `%v` prints it. -/
abbrev Error := String

/-- A Go `float64`, carried as its IEEE-754 bit pattern. -/
structure Float64 where
  bits : Nat
deriving DecidableEq, Repr

/-- The bit pattern is a NaN: exponent all ones, fraction not zero. -/
def Float64.isNaN (x : Float64) : Bool :=
  decide ((x.bits / 2 ^ 52) % 2 ^ 11 = 2047) && decide (x.bits % 2 ^ 52 ≠ 0)

/-- The bit pattern is the negative zero. -/
def Float64.isNegZero (x : Float64) : Bool := decide (x.bits = 2 ^ 63)

/-- A Go `time.Time`, as a count of clock ticks. -/
abbrev Time := Nat

/-- Rendering of a time value, standing for `time.Time.String()`. -/
def timeString (t : Time) : String := toString t

namespace codes

/-- The gRPC status codes of `google.golang.org/grpc/codes`. -/
inductive Code where
  | OK | Canceled | Unknown | InvalidArgument | DeadlineExceeded | NotFound
  | AlreadyExists | PermissionDenied | ResourceExhausted | FailedPrecondition
  | Aborted | OutOfRange | Unimplemented | Internal | Unavailable | DataLoss
  | Unauthenticated
deriving DecidableEq, Repr

end codes

namespace status

/-- A gRPC status error: a code and a human-readable message. -/
structure Status where
  Code : codes.Code
  Message : String
deriving DecidableEq, Repr

/-- The call `status.Errorf(c, format, args...)` with the formatting already
carried out by the caller. -/
def Errorf (c : codes.Code) (msg : String) : Status := ⟨c, msg⟩

end status

/-- What a handler call ends in: a response with a nil error, a nil response
with a status error, or a run-time panic on a nil pointer dereference. -/
inductive Outcome (α : Type) where
  | ok (resp : α)
  | error (st : status.Status)
  | panic
deriving DecidableEq, Repr

/-! ## Records (`order-service/models/order.go`) -/

namespace gorm

/-- The embedded `gorm.Model`: primary key, timestamps and soft-delete mark. -/
structure Model where
  ID : Nat := 0
  CreatedAt : Time := 0
  UpdatedAt : Time := 0
  DeletedAt : Option Time := none
deriving DecidableEq, Repr

/-- The value a `float64` column gives back for a written value, as on the
sqlite store the tests of the repository run against: a NaN is stored as NULL
and read as zero, the negative zero is read as zero, every other value is
read as it was written. -/
def columnValue (x : Float64) : Float64 := if x.isNaN || x.isNegZero then ⟨0⟩ else x

end gorm

namespace models

/-- The record `models.OrderItem`. -/
structure OrderItem extends gorm.Model where
  OrderID : Nat := 0
  MenuItemID : Nat := 0
  MenuItemName : String := ""
  Quantity : Nat := 0
  Price : Float64 := ⟨0⟩
deriving DecidableEq, Repr

/-- The record `models.Order`, owning its order items. -/
structure Order extends gorm.Model where
  UserID : Nat := 0
  Status : String := ""
  OrderItems : List OrderItem := []
deriving DecidableEq, Repr

end models

/-! ## Messages of the three services -/

namespace userv1

/-- Modelled from the spec: message `GetUserRequest` of the generated package
`userv1` (not among the sources), with the fields the handlers and tests use. -/
structure GetUserRequest where
  Id : Nat
deriving DecidableEq, Repr

/-- Modelled from the spec: message `User` of the generated package
`userv1` (not among the sources), with the fields the handlers and tests use. -/
structure User where
  Id : Nat := 0
  Name : String := ""
  Email : String := ""
  IsCafeOwner : Bool := false
  CreatedAt : String := ""
  UpdatedAt : String := ""
deriving DecidableEq, Repr

/-- Modelled from the spec: message `GetUserResponse` of the generated package
`userv1` (not among the sources), with the fields the handlers and tests use.
The field `User` is a pointer and may be nil. -/
structure GetUserResponse where
  User : Option User
deriving DecidableEq, Repr

/-- Modelled from the spec: the part of the client interface `UserServiceClient`
of the generated package `userv1` (not among the sources) that the order
service consumes. A call takes the peer state and returns the new peer state
with the Go result pair `(response, err)`, either of which may be nil. -/
structure UserServiceClient (π : Type) where
  GetUser : π → GetUserRequest → π × Option GetUserResponse × Option Error

end userv1

namespace menuv1

/-- Modelled from the spec: message `GetMenuItemRequest` of the generated package
`menuv1` (not among the sources), with the fields the handlers and tests use. -/
structure GetMenuItemRequest where
  Id : Nat
deriving DecidableEq, Repr

/-- Modelled from the spec: message `MenuItem` of the generated package
`menuv1` (not among the sources), with the fields the handlers and tests use. -/
structure MenuItem where
  Id : Nat := 0
  Name : String := ""
  Description : String := ""
  Price : Float64 := ⟨0⟩
  CreatedAt : String := ""
  UpdatedAt : String := ""
deriving DecidableEq, Repr

/-- Modelled from the spec: message `GetMenuItemResponse` of the generated package
`menuv1` (not among the sources), with the fields the handlers and tests use.
The field `MenuItem` is a pointer and may be nil. -/
structure GetMenuItemResponse where
  MenuItem : Option MenuItem
deriving DecidableEq, Repr

/-- Modelled from the spec: the part of the client interface `MenuServiceClient`
of the generated package `menuv1` (not among the sources) that the order
service consumes; a call threads the peer state like `GetUser` does. -/
structure MenuServiceClient (π : Type) where
  GetMenuItem : π → GetMenuItemRequest → π × Option GetMenuItemResponse × Option Error

end menuv1

namespace orderv1

/-- Modelled from the spec: message `OrderItemRequest` of the generated package
`orderv1` (not among the sources), with the fields the handlers and tests use. -/
structure OrderItemRequest where
  MenuItemId : Nat
  Quantity : Nat
deriving DecidableEq, Repr

/-- Modelled from the spec: message `CreateOrderRequest` of the generated package
`orderv1` (not among the sources), with the fields the handlers and tests use.
The field `Items` is a slice of pointers: an entry may be nil. -/
structure CreateOrderRequest where
  UserId : Nat
  Items : List (Option OrderItemRequest)
deriving DecidableEq, Repr

/-- Modelled from the spec: message `OrderItem` of the generated package
`orderv1` (not among the sources), with the fields the handlers and tests use. -/
structure OrderItem where
  Id : Nat
  MenuItemId : Nat
  MenuItemName : String
  Quantity : Nat
  Price : Float64
deriving DecidableEq, Repr

/-- Modelled from the spec: message `Order` of the generated package
`orderv1` (not among the sources), with the fields the handlers and tests use. -/
structure Order where
  Id : Nat
  UserId : Nat
  Status : String
  OrderItems : List OrderItem
  CreatedAt : String
  UpdatedAt : String
deriving DecidableEq, Repr

/-- Modelled from the spec: message `CreateOrderResponse` of the generated package
`orderv1` (not among the sources), with the fields the handlers and tests use. -/
structure CreateOrderResponse where
  Order : Order
deriving DecidableEq, Repr

/-- Modelled from the spec: message `GetOrderRequest` of the generated package
`orderv1` (not among the sources), with the fields the handlers and tests use. -/
structure GetOrderRequest where
  Id : Nat
deriving DecidableEq, Repr

/-- Modelled from the spec: message `GetOrderResponse` of the generated package
`orderv1` (not among the sources), with the fields the handlers and tests use. -/
structure GetOrderResponse where
  Order : Order
deriving DecidableEq, Repr

/-- Modelled from the spec: message `GetOrdersRequest` of the generated package
`orderv1` (not among the sources), with the fields the handlers and tests use. -/
structure GetOrdersRequest where
deriving DecidableEq, Repr

/-- Modelled from the spec: message `GetOrdersResponse` of the generated package
`orderv1` (not among the sources), with the fields the handlers and tests use. -/
structure GetOrdersResponse where
  Orders : List Order
deriving DecidableEq, Repr

/-- Modelled from the spec: message `UpdateOrderStatusRequest` of the generated package
`orderv1` (not among the sources), with the fields the handlers and tests use. -/
structure UpdateOrderStatusRequest where
  Id : Nat
  Status : String
deriving DecidableEq, Repr

/-- Modelled from the spec: message `UpdateOrderStatusResponse` of the generated package
`orderv1` (not among the sources), with the fields the handlers and tests use. -/
structure UpdateOrderStatusResponse where
  Order : Order
deriving DecidableEq, Repr

/-- The fields of a request are Go `uint32` values. -/
def CreateOrderRequest.WellTyped (req : CreateOrderRequest) : Prop :=
  req.UserId < 2 ^ 32 ∧
    ∀ item ∈ req.Items, ∀ it ∈ item, it.MenuItemId < 2 ^ 32 ∧ it.Quantity < 2 ^ 32

instance (req : CreateOrderRequest) : Decidable req.WellTyped :=
  inferInstanceAs (Decidable (req.UserId < 2 ^ 32 ∧
    ∀ item ∈ req.Items, ∀ it ∈ item, it.MenuItemId < 2 ^ 32 ∧ it.Quantity < 2 ^ 32))

end orderv1

/-! ## The record store behind `database.DB` -/

namespace database

/-- The state of the record store: the order aggregates in primary-key order,
the id sequences of the two tables, the store clock, and the failures the
connection will report for the coming statements (one entry is consumed per
store operation; `none` or no entry lets the operation run). Primary keys are
Go `uint` values, wider than the `uint32` ids of the messages. -/
structure Store where
  orders : List models.Order := []
  nextOrderID : Nat := 1
  nextItemID : Nat := 1
  now : Time := 0
  faults : List (Option Error) := []
deriving DecidableEq, Repr

/-- The failure scheduled for the next store operation, if any. -/
def Store.fault (db : Store) : Option Error :=
  match db.faults with
  | some err :: _ => some err
  | _ => none

/-- The store once the next scheduled entry is consumed. -/
def Store.advance (db : Store) : Store := { db with faults := db.faults.tail }

/-- The live (not soft-deleted) order with the given primary key. -/
def Store.lookup (db : Store) (id : Nat) : Option models.Order :=
  db.orders.find? (fun o => decide (o.ID = id) && o.DeletedAt.isNone)

/-- Every stored order carries an id the sequence has already passed. -/
def Store.WF (db : Store) : Prop := ∀ o ∈ db.orders, o.ID < db.nextOrderID

instance (db : Store) : Decidable db.WF :=
  inferInstanceAs (Decidable (∀ o ∈ db.orders, o.ID < db.nextOrderID))

/-- The order items of an aggregate on insert: ids from the item sequence, the
owning order id and the timestamps are filled in, the rest is kept. -/
def stampItems (orderID : Nat) (now : Time) : Nat → List models.OrderItem → List models.OrderItem
  | _, [] => []
  | id, it :: rest =>
    { it with ID := id, OrderID := orderID, CreatedAt := now, UpdatedAt := now }
      :: stampItems orderID now (id + 1) rest

/-- The record as `DB.Create(&order)` inserts it and writes it back: the
generated id and the timestamps are filled in, the column default of `Status`
applies to an empty status, and the order items are stamped. -/
def inserted (db : Store) (order : models.Order) : models.Order :=
  { order with
    ID := db.nextOrderID, CreatedAt := db.now, UpdatedAt := db.now,
    Status := if order.Status = "" then "pending" else order.Status,
    OrderItems := stampItems db.nextOrderID db.now db.nextItemID order.OrderItems }

/-- The row the table holds for a record: the price of every order item is the
value its column gives back. -/
def stored (order : models.Order) : models.Order :=
  { order with
    OrderItems := order.OrderItems.map fun item =>
      { item with Price := gorm.columnValue item.Price } }

/-- Model of `DB.Create(&order)` for an order with a zero primary key: one
transaction inserts the order together with its order items and advances the
id sequences. The record written back keeps the prices it was given; the row
holds them as the column gives them back. A failure leaves the tables as they
were. -/
def Create (db : Store) (order : models.Order) : Store × Except Error models.Order :=
  match db.fault with
  | some err => (db.advance, .error err)
  | none =>
    ({ db.advance with
        orders := db.orders ++ [stored (inserted db order)],
        nextOrderID := db.nextOrderID + 1,
        nextItemID := db.nextItemID + order.OrderItems.length,
        now := db.now + 1 },
      .ok (inserted db order))

/-- Model of `DB.Preload("OrderItems").First(&order, id)`: the live order with
that primary key together with its items, or the error of the store. -/
def First (db : Store) (id : Nat) : Store × Except Error models.Order :=
  match db.fault with
  | some err => (db.advance, .error err)
  | none =>
    match db.lookup id with
    | some order => (db.advance, .ok order)
    | none => (db.advance, .error "record not found")

/-- Model of `DB.Preload("OrderItems").Find(&orders)`: all live orders. -/
def Find (db : Store) : Store × Except Error (List models.Order) :=
  match db.fault with
  | some err => (db.advance, .error err)
  | none => (db.advance, .ok (db.orders.filter (fun o => o.DeletedAt.isNone)))

/-- Model of `DB.Save(&order)` for an order with a non-zero primary key: every
column of the live row with that key is overwritten, `UpdatedAt` is set to the
store clock and written back; when no row matches, the record is inserted. -/
def Save (db : Store) (order : models.Order) : Store × Except Error models.Order :=
  match db.fault with
  | some err => (db.advance, .error err)
  | none =>
    let saved : models.Order := { order with UpdatedAt := db.now }
    let hit : models.Order → Bool := fun o => decide (o.ID = order.ID) && o.DeletedAt.isNone
    let rows :=
      if db.orders.any hit then db.orders.map (fun o => if hit o then saved else o)
      else db.orders ++ [saved]
    ({ db.advance with orders := rows, now := db.now + 1 }, .ok saved)

end database

/-! ## The server (`order-service/grpc/server.go`) -/

/-- The state the handlers run against: the peer services and the store. -/
structure World (π : Type) where
  peers : π
  DB : database.Store
deriving DecidableEq, Repr

/-- The server with its two peer clients. -/
structure OrderServer (π : Type) where
  UserClient : userv1.UserServiceClient π
  MenuClient : menuv1.MenuServiceClient π

def NewOrderServer {π : Type} (userClient : userv1.UserServiceClient π)
    (menuClient : menuv1.MenuServiceClient π) : OrderServer π :=
  { UserClient := userClient, MenuClient := menuClient }

/-- The loop every handler runs to build the response items from the record's
order items. -/
def pbOrderItems (items : List models.OrderItem) : List orderv1.OrderItem :=
  items.map fun item =>
    { Id := uint32 item.ID,
      MenuItemId := uint32 item.MenuItemID,
      MenuItemName := item.MenuItemName,
      Quantity := uint32 item.Quantity,
      Price := item.Price }

/-- The response message every handler composes from an order record. -/
def pbOrder (order : models.Order) : orderv1.Order :=
  { Id := uint32 order.ID,
    UserId := uint32 order.UserID,
    Status := order.Status,
    OrderItems := pbOrderItems order.OrderItems,
    CreatedAt := timeString order.CreatedAt,
    UpdatedAt := timeString order.UpdatedAt }

/-- The loop `for _, item := range req.Items` of `CreateOrder`: one menu
lookup per line item, in input order, leaving at the first failure. -/
def CreateOrder.processItems {π : Type} (s : OrderServer π) :
    π → models.Order → List (Option orderv1.OrderItemRequest) → π × Outcome models.Order
  | p, order, [] => (p, .ok order)
  | p, _, none :: _ => (p, .panic)
  | p, order, some item :: rest =>
    match s.MenuClient.GetMenuItem p { Id := item.MenuItemId } with
    | (p1, _, some err) =>
      (p1, .error (status.Errorf .InvalidArgument
        ("menu item " ++ toString item.MenuItemId ++ " not found: " ++ err)))
    | (p1, none, none) => (p1, .panic)
    | (p1, some { MenuItem := none }, none) => (p1, .panic)
    | (p1, some { MenuItem := some menuItem }, none) =>
      let orderItem : models.OrderItem :=
        { MenuItemID := uint item.MenuItemId,
          MenuItemName := menuItem.Name,
          Quantity := uint item.Quantity,
          Price := menuItem.Price }
      CreateOrder.processItems s p1
        { order with OrderItems := order.OrderItems ++ [orderItem] } rest

def CreateOrder {π : Type} (s : OrderServer π) (w : World π) (req : orderv1.CreateOrderRequest) :
    World π × Outcome orderv1.CreateOrderResponse :=
  match s.UserClient.GetUser w.peers { Id := req.UserId } with
  | (p1, _, some err) =>
    ({ w with peers := p1 }, .error (status.Errorf .InvalidArgument ("user not found: " ++ err)))
  | (p1, _, none) =>
    let order : models.Order := { UserID := uint req.UserId, Status := "pending" }
    match CreateOrder.processItems s p1 order req.Items with
    | (p2, .error st) => ({ w with peers := p2 }, .error st)
    | (p2, .panic) => ({ w with peers := p2 }, .panic)
    | (p2, .ok order) =>
      match database.Create w.DB order with
      | (db, .error err) =>
        ({ peers := p2, DB := db },
          .error (status.Errorf .Internal ("failed to create order: " ++ err)))
      | (db, .ok order) => ({ peers := p2, DB := db }, .ok { Order := pbOrder order })

def GetOrder {π : Type} (_s : OrderServer π) (w : World π) (req : orderv1.GetOrderRequest) :
    World π × Outcome orderv1.GetOrderResponse :=
  match database.First w.DB req.Id with
  | (db, .error _) => ({ w with DB := db }, .error (status.Errorf .NotFound "order not found"))
  | (db, .ok order) => ({ w with DB := db }, .ok { Order := pbOrder order })

def GetOrders {π : Type} (_s : OrderServer π) (w : World π) (_req : orderv1.GetOrdersRequest) :
    World π × Outcome orderv1.GetOrdersResponse :=
  match database.Find w.DB with
  | (db, .error err) =>
    ({ w with DB := db }, .error (status.Errorf .Internal ("failed to get orders: " ++ err)))
  | (db, .ok orders) => ({ w with DB := db }, .ok { Orders := orders.map pbOrder })

def UpdateOrderStatus {π : Type} (_s : OrderServer π) (w : World π)
    (req : orderv1.UpdateOrderStatusRequest) :
    World π × Outcome orderv1.UpdateOrderStatusResponse :=
  match database.First w.DB req.Id with
  | (db1, .error _) =>
    ({ w with DB := db1 }, .error (status.Errorf .NotFound "order not found"))
  | (db1, .ok order) =>
    let order : models.Order := { order with Status := req.Status }
    match database.Save db1 order with
    | (db2, .error err) =>
      ({ w with DB := db2 },
        .error (status.Errorf .Internal ("failed to update order status: " ++ err)))
    | (db2, .ok order) => ({ w with DB := db2 }, .ok { Order := pbOrder order })

/-! ## Notions used to state the properties of the workflow -/

/-- The reply pair of a menu lookup that succeeds with the given menu item. -/
def okReply (m : menuv1.MenuItem) : Option menuv1.GetMenuItemResponse × Option Error :=
  (some { MenuItem := some m }, none)

/-- The `(response, err)` pairs the menu service gives when it is asked for
the menu items of the given line items, one call after the other, starting in
peer state `p`. -/
def menuReplies {π : Type} (c : menuv1.MenuServiceClient π) :
    π → List orderv1.OrderItemRequest → List (Option menuv1.GetMenuItemResponse × Option Error)
  | _, [] => []
  | p, it :: rest =>
    (c.GetMenuItem p { Id := it.MenuItemId }).2
      :: menuReplies c (c.GetMenuItem p { Id := it.MenuItemId }).1 rest

/-- The peer state after the menu service was asked for the given line items. -/
def menuStateAfter {π : Type} (c : menuv1.MenuServiceClient π) :
    π → List orderv1.OrderItemRequest → π
  | p, [] => p
  | p, it :: rest => menuStateAfter c (c.GetMenuItem p { Id := it.MenuItemId }).1 rest

/-- The order item the loop of `CreateOrder` appends for a line item whose
lookup returned the menu item `m`. -/
def snapshotOf (it : orderv1.OrderItemRequest) (m : menuv1.MenuItem) : models.OrderItem :=
  { MenuItemID := uint it.MenuItemId,
    MenuItemName := m.Name,
    Quantity := uint it.Quantity,
    Price := m.Price }

/-- The record `CreateOrder` hands to the store once the line items `its`
resolved to the menu items `ms`. -/
def builtOrder (req : orderv1.CreateOrderRequest) (its : List orderv1.OrderItemRequest)
    (ms : List menuv1.MenuItem) : models.Order :=
  { UserID := uint req.UserId, Status := "pending", OrderItems := List.zipWith snapshotOf its ms }

/-! ## Fixtures: the peers and requests of `order-service/grpc/server_test.go` -/

/-- The price 2.50 as a `float64`. -/
def price250 : Float64 := ⟨0x4004000000000000⟩

/-- The menu item the test menu service knows. -/
def coffee : menuv1.MenuItem := { Id := 1, Name := "Coffee", Price := price250 }

/-- The error the test menu service returns for an unknown id. -/
def menuNotFound : Error := "rpc error: code = NotFound desc = menu item not found"

/-- The error the test user service returns for an unknown id. -/
def userNotFound : Error := "rpc error: code = NotFound desc = user not found"

/-- A user service that knows user 1 only; its state counts the calls made. -/
def testUserClient : userv1.UserServiceClient Nat where
  GetUser p req :=
    if req.Id = 1 then (p + 1, some { User := some { Id := 1, Name := "Test User" } }, none)
    else (p + 1, none, some userNotFound)

/-- A menu service that knows menu item 1 (Coffee, 2.50) only. -/
def testMenuClient : menuv1.MenuServiceClient Nat where
  GetMenuItem p req :=
    if req.Id = 1 then
      (p + 1, some { MenuItem := some coffee }, none)
    else (p + 1, none, some menuNotFound)

/-- A menu service whose item 1 was renamed and repriced. -/
def editedMenuClient : menuv1.MenuServiceClient Nat where
  GetMenuItem p req :=
    if req.Id = 1 then
      (p + 1, some { MenuItem := some { Id := 1, Name := "Latte", Price := ⟨0⟩ } }, none)
    else (p + 1, none, some menuNotFound)

def testServer : OrderServer Nat := NewOrderServer testUserClient testMenuClient

def editedServer : OrderServer Nat := NewOrderServer testUserClient editedMenuClient

/-- An empty store with no scheduled failure, and peers that saw no call. -/
def emptyWorld : World Nat := { peers := 0, DB := {} }

/-- The request of `TestCreateOrder_Success`. -/
def successRequest : orderv1.CreateOrderRequest :=
  { UserId := 1, Items := [some { MenuItemId := 1, Quantity := 2 }] }

/-- The request of `TestCreateOrder_InvalidUser`. -/
def invalidUserRequest : orderv1.CreateOrderRequest :=
  { UserId := 999, Items := [some { MenuItemId := 1, Quantity := 1 }] }

/-- The request of `TestCreateOrder_InvalidMenuItem`. -/
def invalidMenuItemRequest : orderv1.CreateOrderRequest :=
  { UserId := 1, Items := [some { MenuItemId := 999, Quantity := 1 }] }

/-- A request whose second line item does not resolve. -/
def secondItemFailsRequest : orderv1.CreateOrderRequest :=
  { UserId := 1, Items := [some { MenuItemId := 1, Quantity := 2 }, some { MenuItemId := 999, Quantity := 1 }] }

/-- A request that repeats a line item and asks for a zero quantity. -/
def repeatedItemRequest : orderv1.CreateOrderRequest :=
  { UserId := 1, Items := [some { MenuItemId := 1, Quantity := 0 }, some { MenuItemId := 1, Quantity := 3 }] }

/-- A store whose order id sequence has passed 2^32 and that holds order 1. -/
def wrappedStore : database.Store :=
  { orders := [{ ID := 1, UserID := 7, Status := "done" }],
    nextOrderID := 2 ^ 32 + 1 }

/-- An order record in status "pending" with one order item. -/
def storedOrder : models.Order :=
  { ID := 1, UserID := 1, Status := "pending",
    OrderItems := [{ ID := 1, OrderID := 1, MenuItemID := 1, MenuItemName := "Coffee",
                     Quantity := 2, Price := price250 }] }

/-- A store holding `storedOrder` only. -/
def oneOrderStore : database.Store :=
  { orders := [storedOrder], nextOrderID := 2, nextItemID := 2, now := 1 }

/-- A world whose store refuses the next statement. -/
def failingWorld : World Nat := { peers := 0, DB := { faults := [some "connection refused"] } }

/-- The response to `successRequest` on the empty store. -/
def successResponse : orderv1.CreateOrderResponse :=
  { Order :=
    { Id := 1, UserId := 1, Status := "pending",
      OrderItems := [{ Id := 1, MenuItemId := 1, MenuItemName := "Coffee", Quantity := 2,
                       Price := price250 }],
      CreatedAt := "0", UpdatedAt := "0" } }

/-- The response to `repeatedItemRequest` on the empty store. -/
def repeatedItemResponse : orderv1.CreateOrderResponse :=
  { Order :=
    { Id := 1, UserId := 1, Status := "pending",
      OrderItems := [{ Id := 1, MenuItemId := 1, MenuItemName := "Coffee", Quantity := 0,
                       Price := price250 },
                     { Id := 2, MenuItemId := 1, MenuItemName := "Coffee", Quantity := 3,
                       Price := price250 }],
      CreatedAt := "0", UpdatedAt := "0" } }

/-- The world of `wrappedStore`. -/
def wrappedWorld : World Nat := { peers := 0, DB := wrappedStore }

/-- The world of `oneOrderStore`. -/
def oneOrderWorld : World Nat := { peers := 0, DB := oneOrderStore }

/-- The order 1 held by `wrappedStore`, as `GetOrder` reports it. -/
def wrappedStoreOrder : orderv1.Order :=
  { Id := 1, UserId := 7, Status := "done", OrderItems := [], CreatedAt := "0", UpdatedAt := "0" }

/-- The negative zero as a `float64`. -/
def negZero : Float64 := ⟨0x8000000000000000⟩

/-- A menu service whose item 1 is priced at the negative zero. -/
def negZeroMenuClient : menuv1.MenuServiceClient Nat where
  GetMenuItem p req :=
    if req.Id = 1 then
      (p + 1, some { MenuItem := some { Id := 1, Name := "Coffee", Price := negZero } }, none)
    else (p + 1, none, some menuNotFound)

def negZeroServer : OrderServer Nat := NewOrderServer testUserClient negZeroMenuClient

/-- The response to `successRequest` on the empty store when the menu item is
priced at the negative zero. -/
def negZeroResponse : orderv1.CreateOrderResponse :=
  { Order :=
    { Id := 1, UserId := 1, Status := "pending",
      OrderItems := [{ Id := 1, MenuItemId := 1, MenuItemName := "Coffee", Quantity := 2,
                       Price := negZero }],
      CreatedAt := "0", UpdatedAt := "0" } }

/-- The order of `negZeroResponse` as `GetOrder` reads it back from the store. -/
def negZeroReadBack : orderv1.Order :=
  { Id := 1, UserId := 1, Status := "pending",
    OrderItems := [{ Id := 1, MenuItemId := 1, MenuItemName := "Coffee", Quantity := 2,
                     Price := ⟨0⟩ }],
    CreatedAt := "0", UpdatedAt := "0" }

/-- A request without line items. -/
def emptyRequest : orderv1.CreateOrderRequest := { UserId := 1, Items := [] }

/-! ## The calls `CreateOrder` makes to its peers -/

/-- A call to a peer service, with the id asked for. -/
inductive PeerCall where
  | GetUser (id : Nat)
  | GetMenuItem (id : Nat)
deriving DecidableEq, Repr

/-- The user client `c` with a log kept beside the peer state: every call is
answered as `c` answers it and appended to the log. -/
def recordingUserClient {π : Type} (c : userv1.UserServiceClient π) :
    userv1.UserServiceClient (π × List PeerCall) where
  GetUser p req :=
    (((c.GetUser p.1 req).1, p.2 ++ [PeerCall.GetUser req.Id]), (c.GetUser p.1 req).2)

/-- The menu client `c` with a log kept beside the peer state. -/
def recordingMenuClient {π : Type} (c : menuv1.MenuServiceClient π) :
    menuv1.MenuServiceClient (π × List PeerCall) where
  GetMenuItem p req :=
    (((c.GetMenuItem p.1 req).1, p.2 ++ [PeerCall.GetMenuItem req.Id]), (c.GetMenuItem p.1 req).2)

/-- The server `s` with both of its clients recording their calls in one log. -/
def recordingServer {π : Type} (s : OrderServer π) : OrderServer (π × List PeerCall) :=
  NewOrderServer (recordingUserClient s.UserClient) (recordingMenuClient s.MenuClient)

/-- The menu lookups as the specification orders them: one per line item, in
input order (a repeated id is asked again), ending with the first lookup that
fails. -/
def lookupsUntilFailure {π : Type} (c : menuv1.MenuServiceClient π) :
    π → List orderv1.OrderItemRequest → List PeerCall
  | _, [] => []
  | p, it :: rest =>
    PeerCall.GetMenuItem it.MenuItemId ::
      (match (c.GetMenuItem p { Id := it.MenuItemId }).2.2 with
        | none => lookupsUntilFailure c (c.GetMenuItem p { Id := it.MenuItemId }).1 rest
        | some _ => [])

/-- The peer calls as the specification orders them: one user lookup first,
then, unless it failed, the menu lookups. -/
def prescribedCalls {π : Type} (s : OrderServer π) (p : π) (userId : Nat)
    (its : List orderv1.OrderItemRequest) : List PeerCall :=
  PeerCall.GetUser userId ::
    (match (s.UserClient.GetUser p { Id := userId }).2.2 with
      | none => lookupsUntilFailure s.MenuClient (s.UserClient.GetUser p { Id := userId }).1 its
      | some _ => [])

/-- A menu service that answers every lookup without an error and without a
menu item: the response is there, its field `MenuItem` is nil. -/
def nilItemMenuClient : menuv1.MenuServiceClient Nat where
  GetMenuItem p _ := (p + 1, some { MenuItem := none }, none)

def nilItemServer : OrderServer Nat := NewOrderServer testUserClient nilItemMenuClient

/-- A request whose first line item does not resolve and whose second would. -/
def firstItemFailsRequest : orderv1.CreateOrderRequest :=
  { UserId := 1,
    Items := [some { MenuItemId := 999, Quantity := 1 }, some { MenuItemId := 1, Quantity := 2 }] }

/-- The store of `oneOrderStore` with a second order of another user. -/
def twoOrderStore : database.Store :=
  { orders := [storedOrder, { ID := 2, UserID := 7, Status := "done" }],
    nextOrderID := 3, nextItemID := 2, now := 2 }

/-- The world of `twoOrderStore`. -/
def twoOrderWorld : World Nat := { peers := 0, DB := twoOrderStore }

/-- A request that sets order 1 to the status "ready". -/
def readyRequest : orderv1.UpdateOrderStatusRequest := { Id := 1, Status := "ready" }

/-- The response to `readyRequest` on `twoOrderStore`. -/
def readyResponse : orderv1.UpdateOrderStatusResponse :=
  { Order :=
    { Id := 1, UserId := 1, Status := "ready",
      OrderItems := [{ Id := 1, MenuItemId := 1, MenuItemName := "Coffee", Quantity := 2,
                       Price := price250 }],
      CreatedAt := "0", UpdatedAt := "2" } }

/-- The world after the given `CreateOrder` calls, made one after the other,
when every one of them succeeded. -/
def createOrders {π : Type} (s : OrderServer π) :
    World π → List orderv1.CreateOrderRequest → Option (World π)
  | w, [] => some w
  | w, req :: rest =>
    match CreateOrder s w req with
    | (w1, .ok _) => createOrders s w1 rest
    | _ => none

/-! ## The remaining messages of the user and the menu service -/

namespace userv1

/-- Modelled from the spec: message `CreateUserRequest` of the generated package
`userv1` (not among the sources), with the fields the handlers and tests use. -/
structure CreateUserRequest where
  Name : String := ""
  Email : String := ""
  IsCafeOwner : Bool := false
deriving DecidableEq, Repr

/-- Modelled from the spec: message `CreateUserResponse` of the generated package
`userv1` (not among the sources), with the fields the handlers and tests use. -/
structure CreateUserResponse where
  User : Option User
deriving DecidableEq, Repr

/-- Modelled from the spec: message `GetUsersRequest` of the generated package
`userv1` (not among the sources), with the fields the handlers and tests use. -/
structure GetUsersRequest where
deriving DecidableEq, Repr

/-- Modelled from the spec: message `GetUsersResponse` of the generated package
`userv1` (not among the sources), with the fields the handlers and tests use. -/
structure GetUsersResponse where
  Users : List User
deriving DecidableEq, Repr

/-- Modelled from the spec: message `UpdateUserRequest` of the generated package
`userv1` (not among the sources), with the fields the handlers and tests use. -/
structure UpdateUserRequest where
  Id : Nat
  Name : String := ""
  Email : String := ""
  IsCafeOwner : Bool := false
deriving DecidableEq, Repr

/-- Modelled from the spec: message `UpdateUserResponse` of the generated package
`userv1` (not among the sources), with the fields the handlers and tests use. -/
structure UpdateUserResponse where
  User : Option User
deriving DecidableEq, Repr

/-- Modelled from the spec: message `DeleteUserRequest` of the generated package
`userv1` (not among the sources), with the fields the handlers and tests use. -/
structure DeleteUserRequest where
  Id : Nat
deriving DecidableEq, Repr

/-- Modelled from the spec: message `DeleteUserResponse` of the generated package
`userv1` (not among the sources), with the fields the handlers and tests use. -/
structure DeleteUserResponse where
  Success : Bool
deriving DecidableEq, Repr

end userv1

namespace menuv1

/-- Modelled from the spec: message `CreateMenuItemRequest` of the generated package
`menuv1` (not among the sources), with the fields the handlers and tests use. -/
structure CreateMenuItemRequest where
  Name : String := ""
  Description : String := ""
  Price : Float64 := ⟨0⟩
deriving DecidableEq, Repr

/-- Modelled from the spec: message `CreateMenuItemResponse` of the generated package
`menuv1` (not among the sources), with the fields the handlers and tests use. -/
structure CreateMenuItemResponse where
  MenuItem : Option MenuItem
deriving DecidableEq, Repr

/-- Modelled from the spec: message `GetMenuItemsRequest` of the generated package
`menuv1` (not among the sources), with the fields the handlers and tests use. -/
structure GetMenuItemsRequest where
deriving DecidableEq, Repr

/-- Modelled from the spec: message `GetMenuItemsResponse` of the generated package
`menuv1` (not among the sources), with the fields the handlers and tests use. -/
structure GetMenuItemsResponse where
  MenuItems : List MenuItem
deriving DecidableEq, Repr

/-- Modelled from the spec: message `UpdateMenuItemRequest` of the generated package
`menuv1` (not among the sources), with the fields the handlers and tests use. -/
structure UpdateMenuItemRequest where
  Id : Nat
  Name : String := ""
  Description : String := ""
  Price : Float64 := ⟨0⟩
deriving DecidableEq, Repr

/-- Modelled from the spec: message `UpdateMenuItemResponse` of the generated package
`menuv1` (not among the sources), with the fields the handlers and tests use. -/
structure UpdateMenuItemResponse where
  MenuItem : Option MenuItem
deriving DecidableEq, Repr

/-- Modelled from the spec: message `DeleteMenuItemRequest` of the generated package
`menuv1` (not among the sources), with the fields the handlers and tests use. -/
structure DeleteMenuItemRequest where
  Id : Nat
deriving DecidableEq, Repr

/-- Modelled from the spec: message `DeleteMenuItemResponse` of the generated package
`menuv1` (not among the sources), with the fields the handlers and tests use. -/
structure DeleteMenuItemResponse where
  Success : Bool
deriving DecidableEq, Repr

end menuv1

end OrderService

/-!
# User service (`user-service/grpc/server.go`, `user-service/models/user.go`)

The five handlers run against the record store of the user service alone.
The store is modelled like the one of the order service: the table of users
in primary-key order, the id sequence, the store clock and the schedule of
statement failures. The unique index on `Email` is part of the model; the
`not null` columns never receive a null, since a Go string is stored as it is,
the empty string included.
-/

namespace UserService

open OrderService

namespace models

/-- The record `models.User`. -/
structure User extends gorm.Model where
  Name : String := ""
  Email : String := ""
  IsCafeOwner : Bool := false
deriving DecidableEq, Repr

end models

namespace database

/-- The state of the record store of the user service. -/
structure Store where
  users : List models.User := []
  nextID : Nat := 1
  now : Time := 0
  faults : List (Option Error) := []
deriving DecidableEq, Repr

/-- The failure scheduled for the next store operation, if any. -/
def Store.fault (db : Store) : Option Error :=
  match db.faults with
  | some err :: _ => some err
  | _ => none

/-- The store once the next scheduled entry is consumed. -/
def Store.advance (db : Store) : Store := { db with faults := db.faults.tail }

/-- A row is live when it is not soft-deleted and carries the primary key. -/
def hit (id : Nat) (u : models.User) : Bool := decide (u.ID = id) && u.DeletedAt.isNone

/-- The live (not soft-deleted) user with the given primary key. -/
def Store.lookup (db : Store) (id : Nat) : Option models.User := db.users.find? (hit id)

/-- The live users, in the order of the table. -/
def Store.live (db : Store) : List models.User := db.users.filter (fun u => u.DeletedAt.isNone)

/-- The error the store reports when the unique index on `Email` is violated. -/
def uniqueViolation : Error := "UNIQUE constraint failed: users.email"

/-- Some row other than the one with primary key `id` holds the email; soft-deleted
rows stay in the index. -/
def Store.emailTaken (db : Store) (id : Nat) (email : String) : Bool :=
  db.users.any (fun u => decide (u.ID ≠ id) && decide (u.Email = email))

/-- The record as `DB.Create(&user)` inserts it and writes it back. -/
def inserted (db : Store) (user : models.User) : models.User :=
  { user with ID := db.nextID, CreatedAt := db.now, UpdatedAt := db.now }

/-- Model of `DB.Create(&user)` for a user with a zero primary key. A failure
leaves the table as it was. -/
def Create (db : Store) (user : models.User) : Store × Except Error models.User :=
  match db.fault with
  | some err => (db.advance, .error err)
  | none =>
    if db.users.any (fun u => decide (u.Email = user.Email)) then
      (db.advance, .error uniqueViolation)
    else
      ({ db.advance with
          users := db.users ++ [inserted db user],
          nextID := db.nextID + 1,
          now := db.now + 1 },
        .ok (inserted db user))

/-- Model of `DB.First(&user, id)`: the live user with that primary key, or the
error of the store. -/
def First (db : Store) (id : Nat) : Store × Except Error models.User :=
  match db.fault with
  | some err => (db.advance, .error err)
  | none =>
    match db.lookup id with
    | some user => (db.advance, .ok user)
    | none => (db.advance, .error "record not found")

/-- Model of `DB.Find(&users)`: all live users. -/
def Find (db : Store) : Store × Except Error (List models.User) :=
  match db.fault with
  | some err => (db.advance, .error err)
  | none => (db.advance, .ok db.live)

/-- Model of `DB.Save(&user)` for a user with a non-zero primary key: every
column of the live row with that key is overwritten, `UpdatedAt` is set to the
store clock and written back; when no row matches, the record is inserted. The
statement fails when another row holds the email. -/
def Save (db : Store) (user : models.User) : Store × Except Error models.User :=
  match db.fault with
  | some err => (db.advance, .error err)
  | none =>
    if db.emailTaken user.ID user.Email then (db.advance, .error uniqueViolation)
    else
      let saved : models.User := { user with UpdatedAt := db.now }
      let rows :=
        if db.users.any (hit user.ID) then
          db.users.map (fun u => if hit user.ID u then saved else u)
        else db.users ++ [saved]
      ({ db.advance with users := rows, now := db.now + 1 }, .ok saved)

/-- Model of `DB.Delete(&models.User{}, id)`: the live rows with that primary
key are marked as deleted; the result is `RowsAffected`, or the error of the
store. -/
def Delete (db : Store) (id : Nat) : Store × Except Error Nat :=
  match db.fault with
  | some err => (db.advance, .error err)
  | none =>
    ({ db.advance with
        users :=
          db.users.map (fun u => if hit id u then { u with DeletedAt := some db.now } else u),
        now := db.now + 1 },
      .ok (db.users.countP (hit id)))

end database

/-- The server of the user service; it holds no state of its own. -/
structure UserServer where
deriving DecidableEq, Repr

def NewUserServer : UserServer := {}

/-- The response message every handler composes from a user record. -/
def pbUser (user : models.User) : userv1.User :=
  { Id := uint32 user.ID,
    Name := user.Name,
    Email := user.Email,
    IsCafeOwner := user.IsCafeOwner,
    CreatedAt := timeString user.CreatedAt,
    UpdatedAt := timeString user.UpdatedAt }

def CreateUser (_s : UserServer) (db : database.Store) (req : userv1.CreateUserRequest) :
    database.Store × Outcome userv1.CreateUserResponse :=
  let user : models.User :=
    { Name := req.Name, Email := req.Email, IsCafeOwner := req.IsCafeOwner }
  match database.Create db user with
  | (db1, .error err) =>
    (db1, .error (status.Errorf .Internal ("failed to create user: " ++ err)))
  | (db1, .ok user) => (db1, .ok { User := some (pbUser user) })

def GetUser (_s : UserServer) (db : database.Store) (req : userv1.GetUserRequest) :
    database.Store × Outcome userv1.GetUserResponse :=
  match database.First db req.Id with
  | (db1, .error _) => (db1, .error (status.Errorf .NotFound "user not found"))
  | (db1, .ok user) => (db1, .ok { User := some (pbUser user) })

def GetUsers (_s : UserServer) (db : database.Store) (_req : userv1.GetUsersRequest) :
    database.Store × Outcome userv1.GetUsersResponse :=
  match database.Find db with
  | (db1, .error err) =>
    (db1, .error (status.Errorf .Internal ("failed to get users: " ++ err)))
  | (db1, .ok users) => (db1, .ok { Users := users.map pbUser })

def UpdateUser (_s : UserServer) (db : database.Store) (req : userv1.UpdateUserRequest) :
    database.Store × Outcome userv1.UpdateUserResponse :=
  match database.First db req.Id with
  | (db1, .error _) => (db1, .error (status.Errorf .NotFound "user not found"))
  | (db1, .ok user) =>
    let user : models.User :=
      { user with Name := req.Name, Email := req.Email, IsCafeOwner := req.IsCafeOwner }
    match database.Save db1 user with
    | (db2, .error err) =>
      (db2, .error (status.Errorf .Internal ("failed to update user: " ++ err)))
    | (db2, .ok user) => (db2, .ok { User := some (pbUser user) })

def DeleteUser (_s : UserServer) (db : database.Store) (req : userv1.DeleteUserRequest) :
    database.Store × Outcome userv1.DeleteUserResponse :=
  match database.Delete db req.Id with
  | (db1, .error err) =>
    (db1, .error (status.Errorf .Internal ("failed to delete user: " ++ err)))
  | (db1, .ok rowsAffected) =>
    if rowsAffected = 0 then (db1, .error (status.Errorf .NotFound "user not found"))
    else (db1, .ok { Success := true })

/-- The store after the given `CreateUser` calls, made one after the other,
when every one of them succeeded. -/
def createUsers (s : UserServer) :
    database.Store → List userv1.CreateUserRequest → Option database.Store
  | db, [] => some db
  | db, req :: rest =>
    match CreateUser s db req with
    | (db1, .ok _) => createUsers s db1 rest
    | _ => none

/-! ## Fixtures: the requests of `user-service/grpc/server_test.go` -/

/-- The first request of `TestCreateUser`. -/
def johnRequest : userv1.CreateUserRequest :=
  { Name := "John Doe", Email := "john@example.com", IsCafeOwner := false }

/-- The second request of `TestCreateUser`. -/
def janeRequest : userv1.CreateUserRequest :=
  { Name := "Jane Owner", Email := "jane@cafeshop.com", IsCafeOwner := true }

/-- A request with neither a name nor an email. -/
def blankRequest : userv1.CreateUserRequest := { Name := "", Email := "" }

/-- The requests of `TestGetUsers`. -/
def threeUsers : List userv1.CreateUserRequest :=
  [{ Name := "User 1", Email := "user1@example.com" },
   { Name := "User 2", Email := "user2@example.com" },
   { Name := "User 3", Email := "user3@example.com" }]

/-- The row of `johnRequest` created on the empty store. -/
def john : models.User := { ID := 1, Name := "John Doe", Email := "john@example.com" }

/-- The row of `janeRequest` created after `john`. -/
def jane : models.User :=
  { ID := 2, CreatedAt := 1, UpdatedAt := 1, Name := "Jane Owner",
    Email := "jane@cafeshop.com", IsCafeOwner := true }

/-- The store after `johnRequest` and `janeRequest` on the empty store. -/
def twoUserStore : database.Store := { users := [john, jane], nextID := 3, now := 2 }

/-- An empty store whose next statement fails. -/
def failingStore : database.Store := { faults := [some "connection refused"] }

/-- A store whose id sequence stands at 2^32. -/
def wrappedStore : database.Store := { nextID := 2 ^ 32 }

/-- A request that gives user 2 the email of user 1. -/
def emailClashRequest : userv1.UpdateUserRequest :=
  { Id := 2, Name := "Jane Owner", Email := "john@example.com", IsCafeOwner := true }

/-- A request that blanks every field of user 2. -/
def blankUpdateRequest : userv1.UpdateUserRequest := { Id := 2 }

end UserService

/-!
# Menu service (`menu-service/grpc/server.go`)

The handlers are those of the user service over menu items; the store has no
unique index.
-/

namespace MenuService

open OrderService

namespace models

/-- Modelled from the spec: the record `models.MenuItem` of the package
`menu-service/models`, which is not among the sources: the embedded
`gorm.Model` (identifier, timestamps, soft-delete mark) with the name, the
description and the price the handlers read and write. -/
structure MenuItem extends gorm.Model where
  Name : String := ""
  Description : String := ""
  Price : Float64 := ⟨0⟩
deriving DecidableEq, Repr

end models

namespace database

/-- The state of the record store of the menu service. -/
structure Store where
  menuItems : List models.MenuItem := []
  nextID : Nat := 1
  now : Time := 0
  faults : List (Option Error) := []
deriving DecidableEq, Repr

/-- The failure scheduled for the next store operation, if any. -/
def Store.fault (db : Store) : Option Error :=
  match db.faults with
  | some err :: _ => some err
  | _ => none

/-- The store once the next scheduled entry is consumed. -/
def Store.advance (db : Store) : Store := { db with faults := db.faults.tail }

/-- A row is live when it is not soft-deleted and carries the primary key. -/
def hit (id : Nat) (m : models.MenuItem) : Bool := decide (m.ID = id) && m.DeletedAt.isNone

/-- The live (not soft-deleted) menu item with the given primary key. -/
def Store.lookup (db : Store) (id : Nat) : Option models.MenuItem := db.menuItems.find? (hit id)

/-- The live menu items, in the order of the table. -/
def Store.live (db : Store) : List models.MenuItem :=
  db.menuItems.filter (fun m => m.DeletedAt.isNone)

/-- The record as `DB.Create(&menuItem)` inserts it and writes it back. -/
def inserted (db : Store) (menuItem : models.MenuItem) : models.MenuItem :=
  { menuItem with ID := db.nextID, CreatedAt := db.now, UpdatedAt := db.now }

/-- The row the table holds for a record: the price is the value its column
gives back. -/
def stored (menuItem : models.MenuItem) : models.MenuItem :=
  { menuItem with Price := gorm.columnValue menuItem.Price }

/-- Model of `DB.Create(&menuItem)` for a menu item with a zero primary key.
The record written back keeps the price it was given; the row holds it as the
column gives it back. A failure leaves the table as it was. -/
def Create (db : Store) (menuItem : models.MenuItem) : Store × Except Error models.MenuItem :=
  match db.fault with
  | some err => (db.advance, .error err)
  | none =>
    ({ db.advance with
        menuItems := db.menuItems ++ [stored (inserted db menuItem)],
        nextID := db.nextID + 1,
        now := db.now + 1 },
      .ok (inserted db menuItem))

/-- Model of `DB.First(&menuItem, id)`: the live menu item with that primary
key, or the error of the store. -/
def First (db : Store) (id : Nat) : Store × Except Error models.MenuItem :=
  match db.fault with
  | some err => (db.advance, .error err)
  | none =>
    match db.lookup id with
    | some menuItem => (db.advance, .ok menuItem)
    | none => (db.advance, .error "record not found")

/-- Model of `DB.Find(&menuItems)`: all live menu items. -/
def Find (db : Store) : Store × Except Error (List models.MenuItem) :=
  match db.fault with
  | some err => (db.advance, .error err)
  | none => (db.advance, .ok db.live)

/-- Model of `DB.Save(&menuItem)` for a menu item with a non-zero primary key:
every column of the live row with that key is overwritten, `UpdatedAt` is set
to the store clock and written back; when no row matches, the record is
inserted. The row holds the price as the column gives it back. -/
def Save (db : Store) (menuItem : models.MenuItem) : Store × Except Error models.MenuItem :=
  match db.fault with
  | some err => (db.advance, .error err)
  | none =>
    let saved : models.MenuItem := { menuItem with UpdatedAt := db.now }
    let rows :=
      if db.menuItems.any (hit menuItem.ID) then
        db.menuItems.map (fun m => if hit menuItem.ID m then stored saved else m)
      else db.menuItems ++ [stored saved]
    ({ db.advance with menuItems := rows, now := db.now + 1 }, .ok saved)

/-- Model of `DB.Delete(&models.MenuItem{}, id)`: the live rows with that
primary key are marked as deleted; the result is `RowsAffected`, or the error
of the store. -/
def Delete (db : Store) (id : Nat) : Store × Except Error Nat :=
  match db.fault with
  | some err => (db.advance, .error err)
  | none =>
    ({ db.advance with
        menuItems :=
          db.menuItems.map (fun m => if hit id m then { m with DeletedAt := some db.now } else m),
        now := db.now + 1 },
      .ok (db.menuItems.countP (hit id)))

end database

/-- The server of the menu service; it holds no state of its own. -/
structure MenuServer where
deriving DecidableEq, Repr

def NewMenuServer : MenuServer := {}

/-- The response message every handler composes from a menu item record. -/
def pbMenuItem (menuItem : models.MenuItem) : menuv1.MenuItem :=
  { Id := uint32 menuItem.ID,
    Name := menuItem.Name,
    Description := menuItem.Description,
    Price := menuItem.Price,
    CreatedAt := timeString menuItem.CreatedAt,
    UpdatedAt := timeString menuItem.UpdatedAt }

def CreateMenuItem (_s : MenuServer) (db : database.Store) (req : menuv1.CreateMenuItemRequest) :
    database.Store × Outcome menuv1.CreateMenuItemResponse :=
  let menuItem : models.MenuItem :=
    { Name := req.Name, Description := req.Description, Price := req.Price }
  match database.Create db menuItem with
  | (db1, .error err) =>
    (db1, .error (status.Errorf .Internal ("failed to create menu item: " ++ err)))
  | (db1, .ok menuItem) => (db1, .ok { MenuItem := some (pbMenuItem menuItem) })

def GetMenuItem (_s : MenuServer) (db : database.Store) (req : menuv1.GetMenuItemRequest) :
    database.Store × Outcome menuv1.GetMenuItemResponse :=
  match database.First db req.Id with
  | (db1, .error _) => (db1, .error (status.Errorf .NotFound "menu item not found"))
  | (db1, .ok menuItem) => (db1, .ok { MenuItem := some (pbMenuItem menuItem) })

def GetMenuItems (_s : MenuServer) (db : database.Store) (_req : menuv1.GetMenuItemsRequest) :
    database.Store × Outcome menuv1.GetMenuItemsResponse :=
  match database.Find db with
  | (db1, .error err) =>
    (db1, .error (status.Errorf .Internal ("failed to get menu items: " ++ err)))
  | (db1, .ok menuItems) => (db1, .ok { MenuItems := menuItems.map pbMenuItem })

def UpdateMenuItem (_s : MenuServer) (db : database.Store) (req : menuv1.UpdateMenuItemRequest) :
    database.Store × Outcome menuv1.UpdateMenuItemResponse :=
  match database.First db req.Id with
  | (db1, .error _) => (db1, .error (status.Errorf .NotFound "menu item not found"))
  | (db1, .ok menuItem) =>
    let menuItem : models.MenuItem :=
      { menuItem with Name := req.Name, Description := req.Description, Price := req.Price }
    match database.Save db1 menuItem with
    | (db2, .error err) =>
      (db2, .error (status.Errorf .Internal ("failed to update menu item: " ++ err)))
    | (db2, .ok menuItem) => (db2, .ok { MenuItem := some (pbMenuItem menuItem) })

def DeleteMenuItem (_s : MenuServer) (db : database.Store) (req : menuv1.DeleteMenuItemRequest) :
    database.Store × Outcome menuv1.DeleteMenuItemResponse :=
  match database.Delete db req.Id with
  | (db1, .error err) =>
    (db1, .error (status.Errorf .Internal ("failed to delete menu item: " ++ err)))
  | (db1, .ok rowsAffected) =>
    if rowsAffected = 0 then (db1, .error (status.Errorf .NotFound "menu item not found"))
    else (db1, .ok { Success := true })

/-- The store after the given `CreateMenuItem` calls, made one after the
other, when every one of them succeeded. -/
def createMenuItems (s : MenuServer) :
    database.Store → List menuv1.CreateMenuItemRequest → Option database.Store
  | db, [] => some db
  | db, req :: rest =>
    match CreateMenuItem s db req with
    | (db1, .ok _) => createMenuItems s db1 rest
    | _ => none

/-! ## Fixtures: the requests of `tests/integration/integration_test.go` -/

/-- The price 5.00 as a `float64`. -/
def price500 : Float64 := ⟨0x4014000000000000⟩

/-- The first menu item of `TestIntegration_UserAndMenuServices`. -/
def coffeeRequest : menuv1.CreateMenuItemRequest :=
  { Name := "Coffee", Description := "Hot coffee", Price := price250 }

/-- The second menu item of `TestIntegration_UserAndMenuServices`. -/
def sandwichRequest : menuv1.CreateMenuItemRequest :=
  { Name := "Sandwich", Description := "Ham sandwich", Price := price500 }

/-- A request with no name, no description and a zero price. -/
def blankRequest : menuv1.CreateMenuItemRequest := {}

/-- The row of `coffeeRequest` created on the empty store. -/
def coffeeRow : models.MenuItem :=
  { ID := 1, Name := "Coffee", Description := "Hot coffee", Price := price250 }

/-- The row of `sandwichRequest` created after `coffeeRow`. -/
def sandwichRow : models.MenuItem :=
  { ID := 2, CreatedAt := 1, UpdatedAt := 1, Name := "Sandwich",
    Description := "Ham sandwich", Price := price500 }

/-- The store after `coffeeRequest` and `sandwichRequest` on the empty store. -/
def twoItemStore : database.Store :=
  { menuItems := [coffeeRow, sandwichRow], nextID := 3, now := 2 }

/-- An empty store whose next statement fails. -/
def failingStore : database.Store := { faults := [some "connection refused"] }

/-- The store of `twoItemStore` whose second statement fails. -/
def saveFailsStore : database.Store :=
  { twoItemStore with faults := [none, some "connection refused"] }

/-- A store whose id sequence stands at 2^32. -/
def wrappedStore : database.Store := { nextID := 2 ^ 32 }

/-- A request that blanks every field of menu item 2. -/
def blankUpdateRequest : menuv1.UpdateMenuItemRequest := { Id := 2 }

end MenuService

namespace OrderService

/-! # Theorems -/

/-! ## Conversions -/

theorem uint32_uint_of_lt {n : Nat} (h : n < 2 ^ 32) : uint32 (uint n) = n := by
  unfold uint32 uint
  omega

/-! ## The item loop of `CreateOrder` -/

theorem menuReplies_length {π : Type} (c : menuv1.MenuServiceClient π) :
    ∀ (its : List orderv1.OrderItemRequest) (p : π), (menuReplies c p its).length = its.length
  | [], _ => rfl
  | _ :: rest, p => by simp [menuReplies, menuReplies_length c rest]

/-- When every lookup succeeds with a menu item, the loop appends one snapshot
per line item and ends normally. -/
theorem processItems_of_replies {π : Type} (s : OrderServer π) :
    ∀ (its : List orderv1.OrderItemRequest) (ms : List menuv1.MenuItem) (p : π)
      (order : models.Order),
      menuReplies s.MenuClient p its = ms.map okReply →
      CreateOrder.processItems s p order (its.map some) =
        (menuStateAfter s.MenuClient p its,
          .ok { order with OrderItems := order.OrderItems ++ List.zipWith snapshotOf its ms }) := by
  intro its
  induction its with
  | nil =>
    intro ms p order _
    simp [CreateOrder.processItems, menuStateAfter]
  | cons it rest ih =>
    intro ms p order h
    cases ms with
    | nil => simp [menuReplies] at h
    | cons m ms =>
      simp only [menuReplies, List.map_cons, List.cons.injEq] at h
      obtain ⟨h1, h2⟩ := h
      rcases hcall : s.MenuClient.GetMenuItem p { Id := it.MenuItemId } with ⟨p1, r, e⟩
      rw [hcall] at h1 h2
      simp only [okReply, Prod.mk.injEq] at h1
      obtain ⟨hr, he⟩ := h1
      subst hr he
      simp only [List.map_cons, CreateOrder.processItems, hcall, menuStateAfter]
      rw [ih ms p1 _ h2]
      simp [snapshotOf]

/-- When the loop ends normally, no entry was nil, every lookup succeeded with
a menu item, and the order gained one snapshot per line item. -/
theorem processItems_ok_inv {π : Type} (s : OrderServer π) :
    ∀ (items : List (Option orderv1.OrderItemRequest)) (p p2 : π) (order order2 : models.Order),
      CreateOrder.processItems s p order items = (p2, .ok order2) →
      ∃ its ms, items = its.map some ∧ menuReplies s.MenuClient p its = ms.map okReply ∧
        p2 = menuStateAfter s.MenuClient p its ∧
        order2 = { order with OrderItems := order.OrderItems ++ List.zipWith snapshotOf its ms } := by
  intro items
  induction items with
  | nil =>
    intro p p2 order order2 h
    simp only [CreateOrder.processItems, Prod.mk.injEq, Outcome.ok.injEq] at h
    exact ⟨[], [], rfl, rfl, h.1.symm, by simp [← h.2]⟩
  | cons item rest ih =>
    intro p p2 order order2 h
    cases item with
    | none => simp [CreateOrder.processItems] at h
    | some it =>
      rcases hcall : s.MenuClient.GetMenuItem p { Id := it.MenuItemId } with ⟨p1, r, e⟩
      cases e with
      | some err => simp [CreateOrder.processItems, hcall] at h
      | none =>
        cases r with
        | none => simp [CreateOrder.processItems, hcall] at h
        | some resp =>
          obtain ⟨mi⟩ := resp
          cases mi with
          | none => simp [CreateOrder.processItems, hcall] at h
          | some m =>
            simp only [CreateOrder.processItems, hcall] at h
            obtain ⟨its, ms, h1, h2, h3, h4⟩ := ih p1 p2 _ order2 h
            refine ⟨it :: its, m :: ms, by simp [h1], ?_, ?_, ?_⟩
            · simp [menuReplies, hcall, h2, okReply]
            · simp [menuStateAfter, hcall, h3]
            · simp [h4, snapshotOf]

/-- The loop ends in an `InvalidArgument` error naming the line item whose
lookup is the first to fail, when the lookups before it returned menu items. -/
theorem processItems_first_failure {π : Type} (s : OrderServer π) :
    ∀ (pre : List orderv1.OrderItemRequest) (ms : List menuv1.MenuItem) (p : π)
      (order : models.Order) (it : orderv1.OrderItemRequest)
      (tail : List (Option orderv1.OrderItemRequest))
      (r : Option menuv1.GetMenuItemResponse) (err : Error),
      menuReplies s.MenuClient p pre = ms.map okReply →
      (s.MenuClient.GetMenuItem (menuStateAfter s.MenuClient p pre) { Id := it.MenuItemId }).2
        = (r, some err) →
      CreateOrder.processItems s p order (pre.map some ++ some it :: tail) =
        ((s.MenuClient.GetMenuItem (menuStateAfter s.MenuClient p pre) { Id := it.MenuItemId }).1,
          .error (status.Errorf .InvalidArgument
            ("menu item " ++ toString it.MenuItemId ++ " not found: " ++ err))) := by
  intro pre
  induction pre with
  | nil =>
    intro ms p order it tail r err _ hfail
    rcases hcall : s.MenuClient.GetMenuItem p { Id := it.MenuItemId } with ⟨p1, r1, e1⟩
    simp only [menuStateAfter, hcall, Prod.mk.injEq] at hfail
    obtain ⟨_, he⟩ := hfail
    subst he
    simp [CreateOrder.processItems, menuStateAfter, hcall]
  | cons it0 rest ih =>
    intro ms p order it tail r err h hfail
    cases ms with
    | nil => simp [menuReplies] at h
    | cons m ms =>
      simp only [menuReplies, List.map_cons, List.cons.injEq] at h
      obtain ⟨h1, h2⟩ := h
      rcases hcall : s.MenuClient.GetMenuItem p { Id := it0.MenuItemId } with ⟨p1, r1, e1⟩
      rw [hcall] at h1 h2
      simp only [okReply, Prod.mk.injEq] at h1
      obtain ⟨hr, he⟩ := h1
      subst hr he
      simp only [menuStateAfter, hcall] at hfail ⊢
      simp only [List.map_cons, List.cons_append, CreateOrder.processItems, hcall]
      exact ih ms p1 _ it tail r err h2 hfail

/-- The loop ends in an `InvalidArgument` error as soon as some lookup fails,
when the lookups that do not fail return menu items. -/
theorem processItems_some_failure {π : Type} (s : OrderServer π) :
    ∀ (its : List orderv1.OrderItemRequest) (p : π) (order : models.Order),
      (∀ r ∈ menuReplies s.MenuClient p its, r.2 = none → ∃ m, r = okReply m) →
      (∃ r ∈ menuReplies s.MenuClient p its, r.2 ≠ none) →
      ∃ p2 msg, CreateOrder.processItems s p order (its.map some) =
        (p2, .error (status.Errorf .InvalidArgument msg)) := by
  intro its
  induction its with
  | nil =>
    intro p order _ hex
    simp [menuReplies] at hex
  | cons it rest ih =>
    intro p order hwf hex
    rcases hcall : s.MenuClient.GetMenuItem p { Id := it.MenuItemId } with ⟨p1, r, e⟩
    simp only [menuReplies, hcall, List.mem_cons, forall_eq_or_imp, exists_eq_or_imp] at hwf hex
    cases e with
    | some err =>
      refine ⟨p1, "menu item " ++ toString it.MenuItemId ++ " not found: " ++ err, ?_⟩
      simp only [List.map_cons, CreateOrder.processItems, hcall]
    | none =>
      obtain ⟨m, hm⟩ := hwf.1 rfl
      simp only [okReply, Prod.mk.injEq, and_true] at hm
      subst hm
      rcases hex with hhead | htail
      · exact absurd rfl hhead
      · simp only [List.map_cons, CreateOrder.processItems, hcall]
        exact ih p1 _ hwf.2 htail

/-! ## The store -/

theorem stampItems_length (orderID : Nat) (now : Time) :
    ∀ (items : List models.OrderItem) (id : Nat),
      (database.stampItems orderID now id items).length = items.length
  | [], _ => rfl
  | _ :: rest, id => by simp [database.stampItems, stampItems_length orderID now rest]

/-- The response item at position `i` of a freshly inserted order: the line
item and the menu item at that position, under the i-th generated item id. -/
theorem pbOrderItems_stamp_getElem? (orderID : Nat) (now : Time) :
    ∀ (its : List orderv1.OrderItemRequest) (ms : List menuv1.MenuItem) (id i : Nat),
      (pbOrderItems (database.stampItems orderID now id (List.zipWith snapshotOf its ms)))[i]? =
        match its[i]?, ms[i]? with
        | some it, some m =>
          some { Id := uint32 (id + i), MenuItemId := uint32 (uint it.MenuItemId),
                 MenuItemName := m.Name, Quantity := uint32 (uint it.Quantity), Price := m.Price }
        | _, _ => none := by
  intro its
  induction its with
  | nil => intro ms id i; simp [pbOrderItems, database.stampItems]
  | cons it rest ih =>
    intro ms id i
    cases ms with
    | nil =>
      cases i <;> simp [pbOrderItems, database.stampItems]
    | cons m ms =>
      cases i with
      | zero => simp [pbOrderItems, database.stampItems, snapshotOf]
      | succ j =>
        have h := ih ms (id + 1) j
        simp only [pbOrderItems] at h
        simp only [pbOrderItems, List.zipWith_cons_cons, database.stampItems, List.map_cons,
          List.getElem?_cons_succ, h]
        have e : id + 1 + j = id + (j + 1) := by omega
        rw [e]

theorem pbOrderItems_length (items : List models.OrderItem) :
    (pbOrderItems items).length = items.length := by
  simp [pbOrderItems]

theorem lookup_some_inv {db : database.Store} {id : Nat} {o : models.Order}
    (h : db.lookup id = some o) : o ∈ db.orders ∧ o.ID = id ∧ o.DeletedAt = none := by
  unfold database.Store.lookup at h
  have h1 := List.find?_some h
  have h2 := List.mem_of_find?_eq_some h
  simp only [Bool.and_eq_true, decide_eq_true_eq, Option.isNone_iff_eq_none] at h1
  exact ⟨h2, h1.1, h1.2⟩

/-- The row of a freshly inserted order is the one found under the generated id. -/
theorem lookup_create (db : database.Store) (order : models.Order) (hwf : db.WF)
    (hf : db.fault = none) (hlive : order.DeletedAt = none) :
    (database.Create db order).1.lookup db.nextOrderID
      = some (database.stored (database.inserted db order)) := by
  have hnone : db.orders.find?
      (fun o => decide (o.ID = db.nextOrderID) && o.DeletedAt.isNone) = none := by
    rw [List.find?_eq_none]
    intro o ho
    have := hwf o ho
    simp only [Bool.and_eq_true, decide_eq_true_eq, not_and]
    intro h
    omega
  simp only [database.Create, hf, database.Store.lookup, database.Store.advance,
    List.find?_append, hnone, Option.none_or]
  simp [database.inserted, database.stored, hlive]

/-- Reading a row back gives the record that was written when every price of
the record is a value its column gives back as written. -/
theorem pbOrder_stored (o : models.Order)
    (h : ∀ x ∈ (pbOrder o).OrderItems, gorm.columnValue x.Price = x.Price) :
    pbOrder (database.stored o) = pbOrder o := by
  have hitems : pbOrderItems (database.stored o).OrderItems = pbOrderItems o.OrderItems := by
    simp only [database.stored, pbOrderItems, List.map_map]
    apply List.map_congr_left
    intro item hitem
    have hx := h _ (List.mem_map_of_mem _ hitem)
    simp only [Function.comp] 
    simp only at hx
    rw [hx]
  simp only [pbOrder, hitems]
  rfl

/-- Overwriting the rows a predicate selects by a record the predicate selects
makes that record the first one found. -/
theorem find?_map_replace {α : Type} (hit : α → Bool) (saved : α) (hs : hit saved = true) :
    ∀ l : List α, l.any hit = true →
      (l.map (fun o => if hit o then saved else o)).find? hit = some saved
  | [], h => by simp at h
  | a :: rest, h => by
    cases ha : hit a with
    | true => simp [ha, hs]
    | false =>
      have hrest : rest.any hit = true := by simpa [ha] using h
      simp [ha, find?_map_replace hit saved hs rest hrest]

/-! ## `CreateOrder` as a whole -/

/-- The run of `CreateOrder` when the user lookup and every menu lookup
succeed and the store is about to accept the write. -/
theorem createOrder_of_lookups {π : Type} (s : OrderServer π) (w : World π)
    (req : orderv1.CreateOrderRequest) (its : List orderv1.OrderItemRequest)
    (ms : List menuv1.MenuItem)
    (huser : (s.UserClient.GetUser w.peers { Id := req.UserId }).2.2 = none)
    (hitems : req.Items = its.map some)
    (hmenu : menuReplies s.MenuClient (s.UserClient.GetUser w.peers { Id := req.UserId }).1 its
      = ms.map okReply) :
    CreateOrder s w req =
      match database.Create w.DB (builtOrder req its ms) with
      | (db, .error err) =>
        ({ peers := menuStateAfter s.MenuClient
              (s.UserClient.GetUser w.peers { Id := req.UserId }).1 its, DB := db },
          .error (status.Errorf .Internal ("failed to create order: " ++ err)))
      | (db, .ok order) =>
        ({ peers := menuStateAfter s.MenuClient
              (s.UserClient.GetUser w.peers { Id := req.UserId }).1 its, DB := db },
          .ok { Order := pbOrder order }) := by
  rcases hcall : s.UserClient.GetUser w.peers { Id := req.UserId } with ⟨p1, r, e⟩
  rw [hcall] at huser hmenu
  simp only at huser hmenu
  subst huser
  have hloop := processItems_of_replies s its ms p1
    { UserID := uint req.UserId, Status := "pending" } hmenu
  simp only [CreateOrder, hcall, hitems, hloop, builtOrder, List.nil_append]

/-- A successful `CreateOrder` went through every step of the workflow. -/
theorem createOrder_ok_inv {π : Type} (s : OrderServer π) (w w2 : World π)
    (req : orderv1.CreateOrderRequest) (resp : orderv1.CreateOrderResponse)
    (h : CreateOrder s w req = (w2, .ok resp)) :
    ∃ its ms, req.Items = its.map some ∧
      (s.UserClient.GetUser w.peers { Id := req.UserId }).2.2 = none ∧
      menuReplies s.MenuClient (s.UserClient.GetUser w.peers { Id := req.UserId }).1 its
        = ms.map okReply ∧
      w.DB.fault = none ∧
      resp.Order = pbOrder (database.inserted w.DB (builtOrder req its ms)) ∧
      w2 = { peers := menuStateAfter s.MenuClient
                (s.UserClient.GetUser w.peers { Id := req.UserId }).1 its,
             DB := (database.Create w.DB (builtOrder req its ms)).1 } := by
  rcases hcall : s.UserClient.GetUser w.peers { Id := req.UserId } with ⟨p1, r, e⟩
  cases e with
  | some err => simp [CreateOrder, hcall] at h
  | none =>
    rcases hloop : CreateOrder.processItems s p1
      { UserID := uint req.UserId, Status := "pending" } req.Items with ⟨p2, out⟩
    cases out with
    | error st => simp [CreateOrder, hcall, hloop] at h
    | panic => simp [CreateOrder, hcall, hloop] at h
    | ok order =>
      obtain ⟨its, ms, h1, h2, h3, h4⟩ := processItems_ok_inv s _ _ _ _ _ hloop
      simp only [List.nil_append] at h4
      have hbuilt : order = builtOrder req its ms := by rw [h4]; rfl
      subst hbuilt
      cases hf : w.DB.fault with
      | some err => simp [CreateOrder, hcall, hloop, database.Create, hf] at h
      | none =>
        simp only [CreateOrder, hcall, hloop, database.Create, hf, Prod.mk.injEq,
          Outcome.ok.injEq] at h
        refine ⟨its, ms, h1, rfl, h2, rfl, ?_, ?_⟩
        · rw [← h.2]
        · rw [← h.1, h3]
          simp [database.Create, hf]

theorem exists_menuItems_of_all_ok :
    ∀ (l : List (Option menuv1.GetMenuItemResponse × Option Error)),
      (∀ r ∈ l, ∃ m, r = okReply m) → ∃ ms : List menuv1.MenuItem, l = ms.map okReply
  | [], _ => ⟨[], rfl⟩
  | r :: rest, h => by
    obtain ⟨m, hm⟩ := h r (List.mem_cons_self _ _)
    obtain ⟨ms, hms⟩ := exists_menuItems_of_all_ok rest
      (fun x hx => h x (List.mem_cons_of_mem _ hx))
    exact ⟨m :: ms, by simp [hm, hms]⟩

theorem menuItems_length {π : Type} (c : menuv1.MenuServiceClient π) (p : π)
    (its : List orderv1.OrderItemRequest) (ms : List menuv1.MenuItem)
    (h : menuReplies c p its = ms.map okReply) : ms.length = its.length := by
  have h1 := congrArg List.length h
  simpa [menuReplies_length] using h1.symm

/-- The items of the response composed from a freshly inserted order. -/
theorem created_items_getElem? (db : database.Store) (req : orderv1.CreateOrderRequest)
    (its : List orderv1.OrderItemRequest) (ms : List menuv1.MenuItem)
    (hlen : ms.length = its.length) (i : Nat) (it : orderv1.OrderItemRequest)
    (hi : its[i]? = some it) :
    ∃ m, ms[i]? = some m ∧
      (pbOrder (database.inserted db (builtOrder req its ms))).OrderItems[i]? =
        some { Id := uint32 (db.nextItemID + i), MenuItemId := uint32 (uint it.MenuItemId),
               MenuItemName := m.Name, Quantity := uint32 (uint it.Quantity), Price := m.Price } := by
  have hlt : i < its.length := by
    rcases Nat.lt_or_ge i its.length with h | h
    · exact h
    · rw [List.getElem?_eq_none h] at hi; cases hi
  have hm : ms[i]? = some (ms[i]) := List.getElem?_eq_getElem (by omega)
  refine ⟨ms[i], hm, ?_⟩
  simp only [pbOrder, database.inserted, builtOrder]
  rw [pbOrderItems_stamp_getElem?, hi, hm]

theorem created_items_length (db : database.Store) (req : orderv1.CreateOrderRequest)
    (its : List orderv1.OrderItemRequest) (ms : List menuv1.MenuItem)
    (hlen : ms.length = its.length) :
    (pbOrder (database.inserted db (builtOrder req its ms))).OrderItems.length = its.length := by
  simp [pbOrder, database.inserted, builtOrder, pbOrderItems_length, stampItems_length, hlen]

theorem wellTyped_item {req : orderv1.CreateOrderRequest} (hty : req.WellTyped)
    {its : List orderv1.OrderItemRequest} (hitems : req.Items = its.map some) {i : Nat}
    {it : orderv1.OrderItemRequest} (hi : its[i]? = some it) :
    it.MenuItemId < 2 ^ 32 ∧ it.Quantity < 2 ^ 32 := by
  have hmem : it ∈ its := List.getElem?_mem hi
  exact hty.2 (some it) (by rw [hitems]; exact List.mem_map_of_mem _ hmem) it rfl

/-! ## The store invariant is kept by every handler -/

theorem first_store (db : database.Store) (id : Nat) : (database.First db id).1 = db.advance := by
  unfold database.First
  cases db.fault with
  | some err => rfl
  | none => cases db.lookup id <;> rfl

theorem find_store (db : database.Store) : (database.Find db).1 = db.advance := by
  unfold database.Find
  cases db.fault <;> rfl

theorem wf_create {db : database.Store} (h : db.WF) (order : models.Order) :
    (database.Create db order).1.WF := by
  unfold database.Create
  cases db.fault with
  | some err => exact h
  | none =>
    intro o ho
    simp only [database.Store.advance, List.mem_append, List.mem_singleton] at ho
    show o.ID < db.nextOrderID + 1
    rcases ho with ho | ho
    · exact Nat.lt_succ_of_lt (h o ho)
    · rw [ho]; exact Nat.lt_succ_self _

/-- Saving a record keeps the invariant when its id is below the sequence. -/
theorem wf_save {db : database.Store} (h : db.WF) (order : models.Order)
    (hid : order.ID < db.nextOrderID) : (database.Save db order).1.WF := by
  unfold database.Save
  cases db.fault with
  | some err => exact h
  | none =>
    intro o ho
    show o.ID < db.nextOrderID
    simp only [database.Store.advance] at ho
    split at ho
    · rw [List.mem_map] at ho
      obtain ⟨x, hx, hxo⟩ := ho
      split at hxo
      · rw [← hxo]; exact hid
      · rw [← hxo]; exact h x hx
    · rw [List.mem_append, List.mem_singleton] at ho
      rcases ho with ho | ho
      · exact h o ho
      · rw [ho]; exact hid

theorem createOrder_preserves_wf {π : Type} (s : OrderServer π) (w : World π)
    (req : orderv1.CreateOrderRequest) (h : w.DB.WF) : (CreateOrder s w req).1.DB.WF := by
  rcases hcall : s.UserClient.GetUser w.peers { Id := req.UserId } with ⟨p1, r, e⟩
  cases e with
  | some err => simpa [CreateOrder, hcall] using h
  | none =>
    rcases hloop : CreateOrder.processItems s p1
      { UserID := uint req.UserId, Status := "pending" } req.Items with ⟨p2, out⟩
    cases out with
    | error st => simpa [CreateOrder, hcall, hloop] using h
    | panic => simpa [CreateOrder, hcall, hloop] using h
    | ok order =>
      have hc := wf_create h order
      rcases hdb : database.Create w.DB order with ⟨db, res⟩
      rw [hdb] at hc
      cases res <;> simpa [CreateOrder, hcall, hloop, hdb] using hc

theorem getOrder_preserves_wf {π : Type} (s : OrderServer π) (w : World π)
    (req : orderv1.GetOrderRequest) (h : w.DB.WF) : (GetOrder s w req).1.DB.WF := by
  have hf := first_store w.DB req.Id
  rcases hdb : database.First w.DB req.Id with ⟨db, res⟩
  rw [hdb] at hf
  simp only at hf
  subst hf
  cases res <;> simpa [GetOrder, hdb] using h

theorem getOrders_preserves_wf {π : Type} (s : OrderServer π) (w : World π)
    (req : orderv1.GetOrdersRequest) (h : w.DB.WF) : (GetOrders s w req).1.DB.WF := by
  have hf := find_store w.DB
  rcases hdb : database.Find w.DB with ⟨db, res⟩
  rw [hdb] at hf
  simp only at hf
  subst hf
  cases res <;> simpa [GetOrders, hdb] using h

theorem updateOrderStatus_preserves_wf {π : Type} (s : OrderServer π) (w : World π)
    (req : orderv1.UpdateOrderStatusRequest) (h : w.DB.WF) :
    (UpdateOrderStatus s w req).1.DB.WF := by
  have hf := first_store w.DB req.Id
  rcases hdb : database.First w.DB req.Id with ⟨db, res⟩
  rw [hdb] at hf
  simp only at hf
  subst hf
  cases res with
  | error err => simpa [UpdateOrderStatus, hdb] using h
  | ok order =>
    have hmem : order ∈ w.DB.orders := by
      unfold database.First at hdb
      cases hfault : w.DB.fault with
      | some err => simp [hfault] at hdb
      | none =>
        cases hlook : w.DB.lookup req.Id with
        | none => simp [hfault, hlook] at hdb
        | some o =>
          simp only [hfault, hlook, Prod.mk.injEq, Except.ok.injEq, true_and] at hdb
          rw [← hdb]
          exact (lookup_some_inv hlook).1
    have hs := @wf_save w.DB.advance h { order with Status := req.Status } (h order hmem)
    rcases hsave : database.Save w.DB.advance { order with Status := req.Status } with ⟨db2, res2⟩
    rw [hsave] at hs
    cases res2 <;> simpa [UpdateOrderStatus, hdb, hsave] using hs

/-! ## The claims on `CreateOrder` -/

/-- C1: when the user lookup succeeds, every menu-item lookup succeeds with a
menu item and the store accepts the write, `CreateOrder` succeeds, the
returned order has as many items as the request, and the item at every index
carries the menu-item id of the line item at that index. -/
theorem createOrder_keeps_line_items {π : Type} (s : OrderServer π) (w : World π)
    (req : orderv1.CreateOrderRequest) (its : List orderv1.OrderItemRequest)
    (hty : req.WellTyped)
    (huser : (s.UserClient.GetUser w.peers { Id := req.UserId }).2.2 = none)
    (hitems : req.Items = its.map some)
    (hmenu : ∀ r ∈ menuReplies s.MenuClient
      (s.UserClient.GetUser w.peers { Id := req.UserId }).1 its, ∃ m, r = okReply m)
    (hstore : w.DB.fault = none) :
    ∃ resp, (CreateOrder s w req).2 = .ok resp ∧
      resp.Order.OrderItems.length = req.Items.length ∧
      ∀ (i : Nat) (it : orderv1.OrderItemRequest), req.Items[i]? = some (some it) →
        ∃ x : orderv1.OrderItem,
          resp.Order.OrderItems[i]? = some x ∧ x.MenuItemId = it.MenuItemId := by
  obtain ⟨ms, hms⟩ := exists_menuItems_of_all_ok _ hmenu
  have hlen := menuItems_length _ _ _ _ hms
  refine ⟨{ Order := pbOrder (database.inserted w.DB (builtOrder req its ms)) }, ?_, ?_, ?_⟩
  · rw [createOrder_of_lookups s w req its ms huser hitems hms]
    simp [database.Create, hstore]
  · rw [created_items_length w.DB req its ms hlen, hitems, List.length_map]
  · intro i it hi
    have hi2 : its[i]? = some it := by
      rw [hitems, List.getElem?_map] at hi
      cases h : its[i]? with
      | none => rw [h] at hi; cases hi
      | some x => rw [h] at hi; simpa using hi
    obtain ⟨m, _, hx⟩ := created_items_getElem? w.DB req its ms hlen i it hi2
    exact ⟨_, hx, uint32_uint_of_lt (wellTyped_item hty hitems hi2).1⟩

/-- C2: in every successful `CreateOrder` call the item returned at index i
carries the name and the price of the menu item that the i-th menu lookup
returned and the quantity of the i-th line item, whatever that quantity is. -/
theorem createOrder_snapshots_menu_items {π : Type} (s : OrderServer π) (w w2 : World π)
    (req : orderv1.CreateOrderRequest) (resp : orderv1.CreateOrderResponse)
    (hty : req.WellTyped)
    (h : CreateOrder s w req = (w2, .ok resp)) :
    ∃ its, req.Items = its.map some ∧ resp.Order.OrderItems.length = its.length ∧
      ∀ (i : Nat) (it : orderv1.OrderItemRequest), its[i]? = some it →
        ∃ (x : orderv1.OrderItem) (m : menuv1.MenuItem), resp.Order.OrderItems[i]? = some x ∧
          (menuReplies s.MenuClient
            (s.UserClient.GetUser w.peers { Id := req.UserId }).1 its)[i]? = some (okReply m) ∧
          x.MenuItemName = m.Name ∧ x.Price = m.Price ∧ x.Quantity = it.Quantity := by
  obtain ⟨its, ms, hitems, _, hms, _, hresp, _⟩ := createOrder_ok_inv s w w2 req resp h
  have hlen := menuItems_length _ _ _ _ hms
  refine ⟨its, hitems, ?_, ?_⟩
  · rw [hresp, created_items_length w.DB req its ms hlen]
  · intro i it hi
    obtain ⟨m, hm, hx⟩ := created_items_getElem? w.DB req its ms hlen i it hi
    refine ⟨_, m, by rw [hresp]; exact hx, ?_, rfl, rfl, ?_⟩
    · rw [hms, List.getElem?_map, hm]; rfl
    · exact uint32_uint_of_lt (wellTyped_item hty hitems hi).2

/-- C3: whatever error the user lookup returns, `CreateOrder` returns no
response but an `InvalidArgument` error whose message is "user not found: "
followed by the text of that error, and the store is left as it was. -/
theorem createOrder_user_lookup_fails {π : Type} (s : OrderServer π) (w : World π)
    (req : orderv1.CreateOrderRequest) (err : Error)
    (huser : (s.UserClient.GetUser w.peers { Id := req.UserId }).2.2 = some err) :
    (CreateOrder s w req).2 =
        .error { Code := .InvalidArgument, Message := "user not found: " ++ err } ∧
      (CreateOrder s w req).1.DB = w.DB := by
  rcases hcall : s.UserClient.GetUser w.peers { Id := req.UserId } with ⟨p1, r, e⟩
  rw [hcall] at huser
  simp only at huser
  subst huser
  simp [CreateOrder, hcall, status.Errorf]

/-- C4: when the user lookup succeeds and at least one menu-item lookup fails,
at whatever position, `CreateOrder` returns no response but an
`InvalidArgument` error and the store is left as it was. -/
theorem createOrder_menu_lookup_fails {π : Type} (s : OrderServer π) (w : World π)
    (req : orderv1.CreateOrderRequest) (its : List orderv1.OrderItemRequest)
    (huser : (s.UserClient.GetUser w.peers { Id := req.UserId }).2.2 = none)
    (hitems : req.Items = its.map some)
    (hok : ∀ r ∈ menuReplies s.MenuClient
      (s.UserClient.GetUser w.peers { Id := req.UserId }).1 its, r.2 = none → ∃ m, r = okReply m)
    (hfail : ∃ r ∈ menuReplies s.MenuClient
      (s.UserClient.GetUser w.peers { Id := req.UserId }).1 its, r.2 ≠ none) :
    (∃ msg, (CreateOrder s w req).2 = .error { Code := .InvalidArgument, Message := msg }) ∧
      (CreateOrder s w req).1.DB = w.DB := by
  rcases hcall : s.UserClient.GetUser w.peers { Id := req.UserId } with ⟨p1, r, e⟩
  rw [hcall] at huser hok hfail
  simp only at huser hok hfail
  subst huser
  obtain ⟨p2, msg, hloop⟩ := processItems_some_failure s its p1
    { UserID := uint req.UserId, Status := "pending" } hok hfail
  constructor
  · exact ⟨msg, by simp [CreateOrder, hcall, hitems, hloop, status.Errorf]⟩
  · simp [CreateOrder, hcall, hitems, hloop]

/-- C5: when the user lookup succeeds, the lookups of the line items `pre`
return menu items and the lookup of the next line item `it` fails with `err`,
the error of `CreateOrder` reads "menu item <id> not found: <err>" with <id>
the decimal menu-item id of `it`. -/
theorem createOrder_names_failing_item {π : Type} (s : OrderServer π) (w : World π)
    (req : orderv1.CreateOrderRequest) (pre : List orderv1.OrderItemRequest)
    (it : orderv1.OrderItemRequest) (tail : List (Option orderv1.OrderItemRequest))
    (r : Option menuv1.GetMenuItemResponse) (err : Error)
    (huser : (s.UserClient.GetUser w.peers { Id := req.UserId }).2.2 = none)
    (hitems : req.Items = pre.map some ++ some it :: tail)
    (hpre : ∀ r ∈ menuReplies s.MenuClient
      (s.UserClient.GetUser w.peers { Id := req.UserId }).1 pre, ∃ m, r = okReply m)
    (hfail : (s.MenuClient.GetMenuItem
      (menuStateAfter s.MenuClient (s.UserClient.GetUser w.peers { Id := req.UserId }).1 pre)
      { Id := it.MenuItemId }).2 = (r, some err)) :
    (CreateOrder s w req).2 =
      .error { Code := .InvalidArgument,
               Message := "menu item " ++ toString it.MenuItemId ++ " not found: " ++ err } := by
  obtain ⟨ms, hms⟩ := exists_menuItems_of_all_ok _ hpre
  rcases hcall : s.UserClient.GetUser w.peers { Id := req.UserId } with ⟨p1, r1, e⟩
  rw [hcall] at huser hms hfail
  simp only at huser hms hfail
  subst huser
  have hloop := processItems_first_failure s pre ms p1
    { UserID := uint req.UserId, Status := "pending" } it tail r err hms hfail
  simp [CreateOrder, hcall, hitems, hloop, status.Errorf]

/-- C6: when the user lookup and every menu-item lookup succeed and the
aggregate write of the store fails, `CreateOrder` returns no response but an
error with code `Internal`. -/
theorem createOrder_store_write_fails {π : Type} (s : OrderServer π) (w : World π)
    (req : orderv1.CreateOrderRequest) (its : List orderv1.OrderItemRequest) (err : Error)
    (huser : (s.UserClient.GetUser w.peers { Id := req.UserId }).2.2 = none)
    (hitems : req.Items = its.map some)
    (hmenu : ∀ r ∈ menuReplies s.MenuClient
      (s.UserClient.GetUser w.peers { Id := req.UserId }).1 its, ∃ m, r = okReply m)
    (hstore : w.DB.fault = some err) :
    (CreateOrder s w req).2 =
      .error { Code := .Internal, Message := "failed to create order: " ++ err } := by
  obtain ⟨ms, hms⟩ := exists_menuItems_of_all_ok _ hmenu
  rw [createOrder_of_lookups s w req its ms huser hitems hms]
  simp [database.Create, hstore, status.Errorf]

/-- C7 (amended): when the order id the store generates fits in 32 bits and
every price of the created order is a value the store gives back as written,
`GetOrder` on the id a successful `CreateOrder` returned gives back the very
order of that response, whatever server and peer state it is run with; and
`GetOrder` and `GetOrders` neither depend on the peers nor change their state. -/
theorem getOrder_returns_created_order {π : Type} (s s2 : OrderServer π) (w w2 : World π)
    (req : orderv1.CreateOrderRequest) (resp : orderv1.CreateOrderResponse) (p : π)
    (hcreate : CreateOrder s w req = (w2, .ok resp))
    (hwf : w.DB.WF) (hid : w.DB.nextOrderID < 2 ^ 32)
    (hprice : ∀ x ∈ resp.Order.OrderItems, gorm.columnValue x.Price = x.Price)
    (hread : w2.DB.fault = none) :
    (GetOrder s2 { peers := p, DB := w2.DB } { Id := resp.Order.Id }).2
        = .ok { Order := resp.Order } ∧
      ∀ (s3 : OrderServer π) (p3 : π) (db : database.Store) (r : orderv1.GetOrderRequest)
        (rs : orderv1.GetOrdersRequest),
        (GetOrder s3 { peers := p3, DB := db } r).2 = (GetOrder s2 { peers := p, DB := db } r).2 ∧
        (GetOrder s3 { peers := p3, DB := db } r).1.peers = p3 ∧
        (GetOrders s3 { peers := p3, DB := db } rs).2
          = (GetOrders s2 { peers := p, DB := db } rs).2 ∧
        (GetOrders s3 { peers := p3, DB := db } rs).1.peers = p3 := by
  obtain ⟨its, ms, _, _, _, hf, hresp, hw2⟩ := createOrder_ok_inv s w w2 req resp hcreate
  constructor
  · have hidr : (pbOrder (database.inserted w.DB (builtOrder req its ms))).Id
        = w.DB.nextOrderID := by
      simp only [pbOrder, database.inserted, uint32]
      omega
    have hlook := lookup_create w.DB (builtOrder req its ms) hwf hf rfl
    rw [hresp] at hprice
    have hback := pbOrder_stored _ hprice
    rw [hw2] at hread ⊢
    simp only at hread ⊢
    simp only [GetOrder, database.First, hread, hresp, hidr, hlook, hback]
  · intro s3 p3 db r rs
    refine ⟨?_, ?_, ?_, ?_⟩
    · simp only [GetOrder]; split <;> rfl
    · simp only [GetOrder]; split <;> rfl
    · simp only [GetOrders]; split <;> rfl
    · simp only [GetOrders]; split <;> rfl

/-- C8: for a request without line items whose user lookup succeeds and whose
store write is accepted, `CreateOrder` succeeds with an order of zero items,
leaves the peers in the state the user lookup left them in, gives the same
result with any other menu client, and appends one order without order items
to the store. -/
theorem createOrder_empty_item_list {π : Type} (s : OrderServer π) (w : World π)
    (req : orderv1.CreateOrderRequest)
    (huser : (s.UserClient.GetUser w.peers { Id := req.UserId }).2.2 = none)
    (hitems : req.Items = [])
    (hstore : w.DB.fault = none) :
    (∃ resp, (CreateOrder s w req).2 = .ok resp ∧ resp.Order.OrderItems = []) ∧
      (CreateOrder s w req).1.peers = (s.UserClient.GetUser w.peers { Id := req.UserId }).1 ∧
      (∀ menu : menuv1.MenuServiceClient π,
        CreateOrder { s with MenuClient := menu } w req = CreateOrder s w req) ∧
      ∃ saved : models.Order,
        (CreateOrder s w req).1.DB.orders = w.DB.orders ++ [saved] ∧ saved.OrderItems = [] := by
  rcases hcall : s.UserClient.GetUser w.peers { Id := req.UserId } with ⟨p1, r, e⟩
  rw [hcall] at huser
  simp only at huser
  subst huser
  refine ⟨?_, ?_, ?_, ?_⟩
  · refine ⟨{ Order := pbOrder (database.inserted w.DB
        { UserID := uint req.UserId, Status := "pending" }) }, ?_, ?_⟩
    · simp only [CreateOrder, hcall, hitems, CreateOrder.processItems, database.Create, hstore]
    · simp [pbOrder, pbOrderItems, database.inserted, database.stampItems]
  · simp [CreateOrder, hcall, hitems, CreateOrder.processItems, database.Create, hstore]
  · intro menu
    simp [CreateOrder, hcall, hitems, CreateOrder.processItems]
  · refine ⟨database.stored
      (database.inserted w.DB { UserID := uint req.UserId, Status := "pending" }), ?_, ?_⟩
    · simp only [CreateOrder, hcall, hitems, CreateOrder.processItems, database.Create, hstore,
        database.Store.advance]
    · simp [database.inserted, database.stored, database.stampItems]

/-- C9: every order a successful `CreateOrder` returns has status "pending"
and the user id of the request, a `uint32` value. -/
theorem createOrder_pending_for_user {π : Type} (s : OrderServer π) (w w2 : World π)
    (req : orderv1.CreateOrderRequest) (resp : orderv1.CreateOrderResponse)
    (huid : req.UserId < 2 ^ 32)
    (h : CreateOrder s w req = (w2, .ok resp)) :
    resp.Order.Status = "pending" ∧ resp.Order.UserId = req.UserId := by
  obtain ⟨its, ms, _, _, _, _, hresp, _⟩ := createOrder_ok_inv s w w2 req resp h
  rw [hresp]
  constructor
  · simp [pbOrder, database.inserted, builtOrder]
  · simp only [pbOrder, database.inserted, builtOrder]
    exact uint32_uint_of_lt huid

/-! ## The claims on `UpdateOrderStatus` -/

/-- C10: `UpdateOrderStatus` fails with `NotFound` and leaves the stored
orders as they were when no live order has the id; when one has, and the
lookup and the save of the store run, it succeeds for every new status string
and the returned order and the stored order both carry exactly that string. -/
theorem updateOrderStatus_overwrites_status {π : Type} (s : OrderServer π) (w : World π)
    (req : orderv1.UpdateOrderStatusRequest) :
    (w.DB.lookup req.Id = none →
      (UpdateOrderStatus s w req).2
          = .error { Code := .NotFound, Message := "order not found" } ∧
        (UpdateOrderStatus s w req).1.DB = w.DB.advance ∧
        (UpdateOrderStatus s w req).1.DB.orders = w.DB.orders) ∧
    (∀ o : models.Order, w.DB.lookup req.Id = some o →
      w.DB.fault = none → w.DB.advance.fault = none →
      ∃ (resp : orderv1.UpdateOrderStatusResponse) (o2 : models.Order),
        (UpdateOrderStatus s w req).2 = .ok resp ∧ resp.Order.Status = req.Status ∧
        (UpdateOrderStatus s w req).1.DB.lookup req.Id = some o2 ∧
        o2.Status = req.Status) := by
  constructor
  · intro hnone
    cases hf : w.DB.fault with
    | some err => simp [UpdateOrderStatus, database.First, hf, status.Errorf, database.Store.advance]
    | none =>
      simp [UpdateOrderStatus, database.First, hf, hnone, status.Errorf, database.Store.advance]
  · intro o hsome hf1 hf2
    obtain ⟨hmem, hoid, hlive⟩ := lookup_some_inv hsome
    obtain ⟨id, st⟩ := req
    simp only at hoid hsome ⊢
    subst hoid
    have hany : w.DB.advance.orders.any
        (fun x => decide (x.ID = o.ID) && x.DeletedAt.isNone) = true := by
      rw [List.any_eq_true]
      exact ⟨o, hmem, by simp [hlive]⟩
    have hrep := find?_map_replace
      (fun x : models.Order => decide (x.ID = o.ID) && x.DeletedAt.isNone)
      ({ o with Status := st, UpdatedAt := w.DB.advance.now } : models.Order)
      (by simp [hlive]) w.DB.advance.orders hany
    have hrun : UpdateOrderStatus s w { Id := o.ID, Status := st } =
        ({ w with DB :=
            { w.DB.advance.advance with
              orders := w.DB.advance.orders.map (fun x =>
                if (decide (x.ID = o.ID) && x.DeletedAt.isNone) = true
                then ({ o with Status := st, UpdatedAt := w.DB.advance.now } : models.Order)
                else x),
              now := w.DB.advance.now + 1 } },
          .ok { Order := pbOrder { o with Status := st, UpdatedAt := w.DB.advance.now } }) := by
      simp only [UpdateOrderStatus, database.First, hf1, hsome, database.Save, hf2, hany, if_true]
    refine ⟨{ Order := pbOrder { o with Status := st, UpdatedAt := w.DB.advance.now } },
      { o with Status := st, UpdatedAt := w.DB.advance.now }, ?_, ?_, ?_, rfl⟩
    · rw [hrun]
    · simp [pbOrder]
    · rw [hrun]
      exact hrep

/-! ## The claims at the inputs of the test suite -/

/-- Witness for C1: the request with a repeated line item on the empty store. -/
theorem createOrder_keeps_line_items_witness :
    repeatedItemRequest.WellTyped ∧
      (testServer.UserClient.GetUser emptyWorld.peers { Id := repeatedItemRequest.UserId }).2.2
        = none ∧
      emptyWorld.DB.fault = none ∧
      ∃ resp, (CreateOrder testServer emptyWorld repeatedItemRequest).2 = .ok resp ∧
        resp.Order.OrderItems.length = repeatedItemRequest.Items.length ∧
        ∀ (i : Nat) (it : orderv1.OrderItemRequest),
          repeatedItemRequest.Items[i]? = some (some it) →
          ∃ x : orderv1.OrderItem,
            resp.Order.OrderItems[i]? = some x ∧ x.MenuItemId = it.MenuItemId :=
  ⟨by decide, by decide, by decide,
    createOrder_keeps_line_items testServer emptyWorld repeatedItemRequest
      [{ MenuItemId := 1, Quantity := 0 }, { MenuItemId := 1, Quantity := 3 }]
      (by decide) (by decide) (by decide)
      (by
        have hl : menuReplies testServer.MenuClient
            (testServer.UserClient.GetUser emptyWorld.peers
              { Id := repeatedItemRequest.UserId }).1
            [{ MenuItemId := 1, Quantity := 0 }, { MenuItemId := 1, Quantity := 3 }]
            = [okReply coffee, okReply coffee] := by decide
        intro r hr
        rw [hl] at hr
        simp only [List.mem_cons, List.mem_singleton, List.not_mem_nil, or_false, or_self] at hr
        exact ⟨coffee, hr⟩)
      (by decide)⟩

/-- Witness for C2: the request with a repeated line item and a zero quantity. -/
theorem createOrder_snapshots_menu_items_witness :
    repeatedItemRequest.WellTyped ∧
      CreateOrder testServer emptyWorld repeatedItemRequest
        = ((CreateOrder testServer emptyWorld repeatedItemRequest).1, .ok repeatedItemResponse) ∧
      ∃ its, repeatedItemRequest.Items = its.map some ∧
        repeatedItemResponse.Order.OrderItems.length = its.length ∧
        ∀ (i : Nat) (it : orderv1.OrderItemRequest), its[i]? = some it →
          ∃ (x : orderv1.OrderItem) (m : menuv1.MenuItem),
            repeatedItemResponse.Order.OrderItems[i]? = some x ∧
            (menuReplies testServer.MenuClient
              (testServer.UserClient.GetUser emptyWorld.peers
                { Id := repeatedItemRequest.UserId }).1 its)[i]? = some (okReply m) ∧
            x.MenuItemName = m.Name ∧ x.Price = m.Price ∧ x.Quantity = it.Quantity :=
  ⟨by decide, by decide,
    createOrder_snapshots_menu_items testServer emptyWorld
      (CreateOrder testServer emptyWorld repeatedItemRequest).1 repeatedItemRequest
      repeatedItemResponse (by decide) (by decide)⟩

/-- Witness for C3: the request of `TestCreateOrder_InvalidUser`. -/
theorem createOrder_user_lookup_fails_witness :
    (testServer.UserClient.GetUser emptyWorld.peers { Id := invalidUserRequest.UserId }).2.2
        = some userNotFound ∧
      (CreateOrder testServer emptyWorld invalidUserRequest).2 =
        .error { Code := .InvalidArgument, Message := "user not found: " ++ userNotFound } ∧
      (CreateOrder testServer emptyWorld invalidUserRequest).1.DB = emptyWorld.DB :=
  ⟨by decide,
    createOrder_user_lookup_fails testServer emptyWorld invalidUserRequest userNotFound
      (by decide)⟩

/-- Witness for C4: the second line item does not resolve, the first one does. -/
theorem createOrder_menu_lookup_fails_witness :
    (testServer.UserClient.GetUser emptyWorld.peers { Id := secondItemFailsRequest.UserId }).2.2
        = none ∧
      menuReplies testServer.MenuClient
          (testServer.UserClient.GetUser emptyWorld.peers
            { Id := secondItemFailsRequest.UserId }).1
          [{ MenuItemId := 1, Quantity := 2 }, { MenuItemId := 999, Quantity := 1 }]
        = [okReply coffee, (none, some menuNotFound)] ∧
      (∃ msg, (CreateOrder testServer emptyWorld secondItemFailsRequest).2
        = .error { Code := .InvalidArgument, Message := msg }) ∧
      (CreateOrder testServer emptyWorld secondItemFailsRequest).1.DB = emptyWorld.DB :=
  ⟨by decide, by decide,
    createOrder_menu_lookup_fails testServer emptyWorld secondItemFailsRequest
      [{ MenuItemId := 1, Quantity := 2 }, { MenuItemId := 999, Quantity := 1 }]
      (by decide) (by decide)
      (by
        have hl : menuReplies testServer.MenuClient
            (testServer.UserClient.GetUser emptyWorld.peers
              { Id := secondItemFailsRequest.UserId }).1
            [{ MenuItemId := 1, Quantity := 2 }, { MenuItemId := 999, Quantity := 1 }]
            = [okReply coffee, (none, some menuNotFound)] := by decide
        intro r hr hnone
        rw [hl] at hr
        simp only [List.mem_cons, List.mem_singleton, List.not_mem_nil, or_false] at hr
        rcases hr with h | h
        · exact ⟨coffee, h⟩
        · rw [h] at hnone; cases hnone)
      ⟨(none, some menuNotFound), by decide, by decide⟩⟩

/-- Witness for C5: the failing menu-item id 999 is named in the message. -/
theorem createOrder_names_failing_item_witness :
    (testServer.UserClient.GetUser emptyWorld.peers { Id := secondItemFailsRequest.UserId }).2.2
        = none ∧
      (CreateOrder testServer emptyWorld secondItemFailsRequest).2 =
        .error { Code := .InvalidArgument,
                 Message := "menu item 999 not found: " ++ menuNotFound } :=
  ⟨by decide,
    createOrder_names_failing_item testServer emptyWorld secondItemFailsRequest
      [{ MenuItemId := 1, Quantity := 2 }] { MenuItemId := 999, Quantity := 1 } [] none
      menuNotFound (by decide) (by decide)
      (by
        have hl : menuReplies testServer.MenuClient
            (testServer.UserClient.GetUser emptyWorld.peers
              { Id := secondItemFailsRequest.UserId }).1
            [{ MenuItemId := 1, Quantity := 2 }] = [okReply coffee] := by decide
        intro r hr
        rw [hl] at hr
        simp only [List.mem_singleton] at hr
        exact ⟨coffee, hr⟩)
      (by decide)⟩

/-- Witness for C6: the store refuses the write of an otherwise valid order. -/
theorem createOrder_store_write_fails_witness :
    (testServer.UserClient.GetUser failingWorld.peers { Id := successRequest.UserId }).2.2
        = none ∧
      failingWorld.DB.fault = some "connection refused" ∧
      (CreateOrder testServer failingWorld successRequest).2 =
        .error { Code := .Internal,
                 Message := "failed to create order: " ++ "connection refused" } :=
  ⟨by decide, by decide,
    createOrder_store_write_fails testServer failingWorld successRequest
      [{ MenuItemId := 1, Quantity := 2 }] "connection refused" (by decide) (by decide)
      (by
        have hl : menuReplies testServer.MenuClient
            (testServer.UserClient.GetUser failingWorld.peers
              { Id := successRequest.UserId }).1
            [{ MenuItemId := 1, Quantity := 2 }] = [okReply coffee] := by decide
        intro r hr
        rw [hl] at hr
        simp only [List.mem_singleton] at hr
        exact ⟨coffee, hr⟩)
      (by decide)⟩

/-- Witness for C7 (amended): the order is read back through a server whose menu
service has renamed and repriced the item. -/
theorem getOrder_returns_created_order_witness :
    emptyWorld.DB.WF ∧ emptyWorld.DB.nextOrderID < 2 ^ 32 ∧
      CreateOrder testServer emptyWorld successRequest
        = ((CreateOrder testServer emptyWorld successRequest).1, .ok successResponse) ∧
      (∀ x ∈ successResponse.Order.OrderItems, gorm.columnValue x.Price = x.Price) ∧
      (GetOrder editedServer
          { peers := 7, DB := (CreateOrder testServer emptyWorld successRequest).1.DB }
          { Id := successResponse.Order.Id }).2
        = .ok { Order := successResponse.Order } :=
  ⟨by decide, by decide, by decide, by decide,
    (getOrder_returns_created_order testServer editedServer emptyWorld
      (CreateOrder testServer emptyWorld successRequest).1 successRequest successResponse 7
      (by decide) (by decide) (by decide) (by decide) (by decide)).1⟩

/-- C7 as stated fails in two ways. Once the order id sequence of the store has
passed 2^32, the order created for user 1 gets the store id 2^32 + 1, the
response carries the id 1, and `GetOrder` on that id returns the older order
1, which belongs to user 7, is in status "done" and has no items. And when the
menu item is priced at the negative zero, the response of `CreateOrder`
carries that price from memory, while `GetOrder` on the returned id reads the
price back from the row, as zero. -/
theorem getOrder_differs_from_created_order :
    (wrappedWorld.DB.WF ∧
      CreateOrder testServer wrappedWorld successRequest
        = ((CreateOrder testServer wrappedWorld successRequest).1, .ok successResponse) ∧
      (CreateOrder testServer wrappedWorld successRequest).1.DB.fault = none ∧
      (GetOrder testServer (CreateOrder testServer wrappedWorld successRequest).1
          { Id := successResponse.Order.Id }).2
        = .ok { Order := wrappedStoreOrder } ∧
      wrappedStoreOrder.UserId ≠ successResponse.Order.UserId ∧
      wrappedStoreOrder.Status ≠ successResponse.Order.Status ∧
      wrappedStoreOrder.OrderItems ≠ successResponse.Order.OrderItems) ∧
    (emptyWorld.DB.WF ∧ emptyWorld.DB.nextOrderID < 2 ^ 32 ∧
      CreateOrder negZeroServer emptyWorld successRequest
        = ((CreateOrder negZeroServer emptyWorld successRequest).1, .ok negZeroResponse) ∧
      (CreateOrder negZeroServer emptyWorld successRequest).1.DB.fault = none ∧
      (GetOrder negZeroServer (CreateOrder negZeroServer emptyWorld successRequest).1
          { Id := negZeroResponse.Order.Id }).2
        = .ok { Order := negZeroReadBack } ∧
      negZeroReadBack.OrderItems.map (fun x => x.Price)
        ≠ negZeroResponse.Order.OrderItems.map (fun x => x.Price)) := by
  refine ⟨⟨by decide, by decide, by decide, by decide, by decide, by decide, by decide⟩,
    ⟨by decide, by decide, by decide, by decide, by decide, by decide⟩⟩

/-- Witness for C8: the request without line items on the empty store. -/
theorem createOrder_empty_item_list_witness :
    (testServer.UserClient.GetUser emptyWorld.peers { Id := emptyRequest.UserId }).2.2 = none ∧
      emptyRequest.Items = [] ∧ emptyWorld.DB.fault = none ∧
      (∃ resp, (CreateOrder testServer emptyWorld emptyRequest).2 = .ok resp ∧
        resp.Order.OrderItems = []) ∧
      (CreateOrder testServer emptyWorld emptyRequest).1.peers
        = (testServer.UserClient.GetUser emptyWorld.peers { Id := emptyRequest.UserId }).1 ∧
      (∀ menu : menuv1.MenuServiceClient Nat,
        CreateOrder { testServer with MenuClient := menu } emptyWorld emptyRequest
          = CreateOrder testServer emptyWorld emptyRequest) ∧
      ∃ saved : models.Order,
        (CreateOrder testServer emptyWorld emptyRequest).1.DB.orders
          = emptyWorld.DB.orders ++ [saved] ∧ saved.OrderItems = [] :=
  ⟨by decide, by decide, by decide,
    createOrder_empty_item_list testServer emptyWorld emptyRequest
      (by decide) (by decide) (by decide)⟩

/-- Witness for C9: the request of `TestCreateOrder_Success`. -/
theorem createOrder_pending_for_user_witness :
    successRequest.UserId < 2 ^ 32 ∧
      CreateOrder testServer emptyWorld successRequest
        = ((CreateOrder testServer emptyWorld successRequest).1, .ok successResponse) ∧
      successResponse.Order.Status = "pending" ∧
      successResponse.Order.UserId = successRequest.UserId :=
  ⟨by decide, by decide,
    createOrder_pending_for_user testServer emptyWorld
      (CreateOrder testServer emptyWorld successRequest).1 successRequest successResponse
      (by decide) (by decide)⟩

/-- Witness for C10: an unknown id, and the empty status written to order 1. -/
theorem updateOrderStatus_overwrites_status_witness :
    (oneOrderWorld.DB.lookup 2 = none ∧
      (UpdateOrderStatus testServer oneOrderWorld { Id := 2, Status := "done" }).2
          = .error { Code := .NotFound, Message := "order not found" } ∧
      (UpdateOrderStatus testServer oneOrderWorld { Id := 2, Status := "done" }).1.DB.orders
          = oneOrderWorld.DB.orders) ∧
    (oneOrderWorld.DB.lookup 1 = some storedOrder ∧ oneOrderWorld.DB.fault = none ∧
      oneOrderWorld.DB.advance.fault = none ∧
      ∃ (resp : orderv1.UpdateOrderStatusResponse) (o2 : models.Order),
        (UpdateOrderStatus testServer oneOrderWorld { Id := 1, Status := "" }).2 = .ok resp ∧
        resp.Order.Status = "" ∧
        (UpdateOrderStatus testServer oneOrderWorld { Id := 1, Status := "" }).1.DB.lookup 1
          = some o2 ∧
        o2.Status = "") :=
  ⟨⟨by decide,
      ((updateOrderStatus_overwrites_status testServer oneOrderWorld
        { Id := 2, Status := "done" }).1 (by decide)).1,
      ((updateOrderStatus_overwrites_status testServer oneOrderWorld
        { Id := 2, Status := "done" }).1 (by decide)).2.2⟩,
    ⟨by decide, by decide, by decide,
      (updateOrderStatus_overwrites_status testServer oneOrderWorld
        { Id := 1, Status := "" }).2 storedOrder (by decide) (by decide) (by decide)⟩⟩

/-! ## The frame of `UpdateOrderStatus` -/

/-- A map that keeps what a predicate sees does not change what is found. -/
theorem find?_map_agree {α : Type} (p : α → Bool) (f : α → α) (hp : ∀ x, p (f x) = p x)
    (hfix : ∀ x, p x = true → f x = x) : ∀ l : List α, (l.map f).find? p = l.find? p
  | [] => rfl
  | a :: rest => by
    cases ha : p a with
    | true => simp [List.find?_cons, hp, ha, hfix a ha]
    | false => simp [List.find?_cons, hp, ha, find?_map_agree p f hp hfix rest]

/-- A successful `UpdateOrderStatus` found the order, saved it with the new
status, and touched no other row. -/
theorem updateOrderStatus_ok_inv {π : Type} (s : OrderServer π) (w w2 : World π)
    (req : orderv1.UpdateOrderStatusRequest) (resp : orderv1.UpdateOrderStatusResponse)
    (h : UpdateOrderStatus s w req = (w2, .ok resp)) :
    ∃ o : models.Order, w.DB.lookup req.Id = some o ∧ w.DB.fault = none ∧
      resp.Order = pbOrder { o with Status := req.Status, UpdatedAt := w.DB.now } ∧
      w2.peers = w.peers ∧
      w2.DB.orders = w.DB.orders.map (fun x =>
        if (decide (x.ID = req.Id) && x.DeletedAt.isNone) = true
        then ({ o with Status := req.Status, UpdatedAt := w.DB.now } : models.Order)
        else x) := by
  cases hf1 : w.DB.fault with
  | some err => simp [UpdateOrderStatus, database.First, hf1] at h
  | none =>
    cases hlook : w.DB.lookup req.Id with
    | none => simp [UpdateOrderStatus, database.First, hf1, hlook] at h
    | some o =>
      obtain ⟨hmem, hoid, hlive⟩ := lookup_some_inv hlook
      have hany : w.DB.advance.orders.any
          (fun x => decide (x.ID = o.ID) && x.DeletedAt.isNone) = true := by
        rw [List.any_eq_true]
        exact ⟨o, hmem, by simp [hlive]⟩
      cases hf2 : w.DB.advance.fault with
      | some err => simp [UpdateOrderStatus, database.First, hf1, hlook, database.Save, hf2] at h
      | none =>
        simp only [UpdateOrderStatus, database.First, hf1, hlook, database.Save, hf2, hany,
          if_true, Prod.mk.injEq, Outcome.ok.injEq] at h
        obtain ⟨hw, hr⟩ := h
        refine ⟨o, rfl, rfl, ?_, ?_, ?_⟩
        · rw [← hr]; rfl
        · rw [← hw]
        · rw [← hw, ← hoid]; rfl

/-- C11: a successful `UpdateOrderStatus` leaves the id, the user id and the
order items of the addressed order as they were, in the response (compared
with what `GetOrder` returned before the call) and in the store, and leaves
every other row of the store untouched. -/
theorem updateOrderStatus_changes_status_only {π : Type} (s : OrderServer π) (w w2 : World π)
    (req : orderv1.UpdateOrderStatusRequest) (resp : orderv1.UpdateOrderStatusResponse)
    (h : UpdateOrderStatus s w req = (w2, .ok resp)) :
    (∃ before : orderv1.GetOrderResponse,
      (GetOrder s w { Id := req.Id }).2 = .ok before ∧
      resp.Order.Id = before.Order.Id ∧ resp.Order.UserId = before.Order.UserId ∧
      resp.Order.OrderItems = before.Order.OrderItems) ∧
    (∃ o o2 : models.Order,
      w.DB.lookup req.Id = some o ∧ w2.DB.lookup req.Id = some o2 ∧
      o2.ID = o.ID ∧ o2.UserID = o.UserID ∧ o2.OrderItems = o.OrderItems) ∧
    (∀ id : Nat, id ≠ req.Id → w2.DB.lookup id = w.DB.lookup id) ∧
    w2.DB.orders.length = w.DB.orders.length ∧
    (∀ (i : Nat) (x : models.Order), w.DB.orders[i]? = some x →
      (x.ID ≠ req.Id ∨ x.DeletedAt ≠ none) → w2.DB.orders[i]? = some x) := by
  obtain ⟨o, hlook, hf, hresp, _, hrows⟩ := updateOrderStatus_ok_inv s w w2 req resp h
  obtain ⟨hmem, hoid, hlive⟩ := lookup_some_inv hlook
  refine ⟨?_, ?_, ?_, ?_, ?_⟩
  · refine ⟨{ Order := pbOrder o }, ?_, ?_, ?_, ?_⟩
    · simp [GetOrder, database.First, hf, hlook]
    · rw [hresp]; rfl
    · rw [hresp]; rfl
    · rw [hresp]; rfl
  · refine ⟨o, { o with Status := req.Status, UpdatedAt := w.DB.now }, hlook, ?_, rfl, rfl, rfl⟩
    have hany : w.DB.orders.any
        (fun x => decide (x.ID = req.Id) && x.DeletedAt.isNone) = true := by
      rw [List.any_eq_true]
      exact ⟨o, hmem, by simp [hoid, hlive]⟩
    unfold database.Store.lookup
    rw [hrows]
    exact find?_map_replace (fun x : models.Order => decide (x.ID = req.Id) && x.DeletedAt.isNone)
      _ (by simp [hoid, hlive]) w.DB.orders hany
  · intro id hid
    unfold database.Store.lookup
    rw [hrows]
    apply find?_map_agree
    · intro x
      by_cases hx : (decide (x.ID = req.Id) && x.DeletedAt.isNone) = true
      · have hxid : x.ID = req.Id := by
          have hx2 := hx
          simp only [Bool.and_eq_true, decide_eq_true_eq] at hx2
          exact hx2.1
        rw [if_pos hx]
        have h1 : decide (o.ID = id) = false := by
          rw [decide_eq_false_iff_not, hoid]; exact fun e => hid e.symm
        have h2 : decide (x.ID = id) = false := by
          rw [decide_eq_false_iff_not, hxid]; exact fun e => hid e.symm
        simp [h1, h2]
      · rw [if_neg hx]
    · intro x hx
      have hxid : x.ID = id := by
        simp only [Bool.and_eq_true, decide_eq_true_eq] at hx
        exact hx.1
      have hne : ¬ ((decide (x.ID = req.Id) && x.DeletedAt.isNone) = true) := by
        simp only [Bool.and_eq_true, decide_eq_true_eq, not_and]
        intro e
        exact absurd (hxid ▸ e) hid
      rw [if_neg hne]
  · rw [hrows, List.length_map]
  · intro i x hx hfree
    rw [hrows, List.getElem?_map, hx]
    have hne : ¬ ((decide (x.ID = req.Id) && x.DeletedAt.isNone) = true) := by
      simp only [Bool.and_eq_true, decide_eq_true_eq, Option.isNone_iff_eq_none, not_and]
      rcases hfree with h1 | h1
      · exact fun e => absurd e h1
      · exact fun _ => h1
    rw [Option.map_some', if_neg hne]


/-! ## The peer calls of `CreateOrder` -/

/-- Recording the calls changes nothing in the run of the item loop, and the
log grows by the lookups the specification orders. -/
theorem processItems_recording {π : Type} (s : OrderServer π)
    (hmenu : ∀ (p : π) (q : menuv1.GetMenuItemRequest),
      (s.MenuClient.GetMenuItem p q).2.2 = none →
        ∃ m, (s.MenuClient.GetMenuItem p q).2 = okReply m) :
    ∀ (its : List orderv1.OrderItemRequest) (p : π) (log : List PeerCall) (order : models.Order),
      CreateOrder.processItems (recordingServer s) (p, log) order (its.map some) =
        (((CreateOrder.processItems s p order (its.map some)).1,
            log ++ lookupsUntilFailure s.MenuClient p its),
          (CreateOrder.processItems s p order (its.map some)).2) := by
  intro its
  induction its with
  | nil => intro p log order; simp [CreateOrder.processItems, lookupsUntilFailure]
  | cons it rest ih =>
    intro p log order
    have hm := hmenu p { Id := it.MenuItemId }
    rcases hcall : s.MenuClient.GetMenuItem p { Id := it.MenuItemId } with ⟨p1, r, e⟩
    rw [hcall] at hm
    cases e with
    | some err =>
      simp [CreateOrder.processItems, recordingServer, NewOrderServer, recordingMenuClient,
        lookupsUntilFailure, hcall]
    | none =>
      obtain ⟨m, hm⟩ := hm rfl
      simp only [okReply, Prod.mk.injEq, and_true] at hm
      subst hm
      have hrec : (recordingServer s).MenuClient.GetMenuItem (p, log) { Id := it.MenuItemId }
          = ((p1, log ++ [PeerCall.GetMenuItem it.MenuItemId]),
              some { MenuItem := some m }, none) := by
        simp [recordingServer, NewOrderServer, recordingMenuClient, hcall]
      simp only [List.map_cons, CreateOrder.processItems, hrec, hcall, lookupsUntilFailure]
      rw [ih]
      simp

/-- C18: with the calls of both clients recorded, the log of a `CreateOrder`
call is the sequence the specification orders: one `GetUser` call, then,
unless it failed, one `GetMenuItem` call per line item in input order, ending
with the first that fails; recording changes nothing in the run; and the store
is either left as it was or is the result of the one aggregate write, which
is made only when the user lookup and every menu lookup succeeded. -/
theorem createOrder_call_sequence {π : Type} (s : OrderServer π) (w : World π)
    (req : orderv1.CreateOrderRequest) (its : List orderv1.OrderItemRequest)
    (hitems : req.Items = its.map some)
    (hmenu : ∀ (p : π) (q : menuv1.GetMenuItemRequest),
      (s.MenuClient.GetMenuItem p q).2.2 = none →
        ∃ m, (s.MenuClient.GetMenuItem p q).2 = okReply m) :
    (CreateOrder (recordingServer s) { peers := (w.peers, []), DB := w.DB } req).1.peers.2
        = prescribedCalls s w.peers req.UserId its ∧
      (CreateOrder (recordingServer s) { peers := (w.peers, []), DB := w.DB } req).2
        = (CreateOrder s w req).2 ∧
      (CreateOrder (recordingServer s) { peers := (w.peers, []), DB := w.DB } req).1.DB
        = (CreateOrder s w req).1.DB ∧
      (CreateOrder (recordingServer s) { peers := (w.peers, []), DB := w.DB } req).1.peers.1
        = (CreateOrder s w req).1.peers ∧
      ((CreateOrder s w req).1.DB = w.DB ∨
        ((s.UserClient.GetUser w.peers { Id := req.UserId }).2.2 = none ∧
          (∀ r ∈ menuReplies s.MenuClient
            (s.UserClient.GetUser w.peers { Id := req.UserId }).1 its, r.2 = none) ∧
          ∃ order : models.Order,
            (CreateOrder s w req).1.DB = (database.Create w.DB order).1)) := by
  rcases hcall : s.UserClient.GetUser w.peers { Id := req.UserId } with ⟨p1, r, e⟩
  have hrec : (recordingServer s).UserClient.GetUser (w.peers, []) { Id := req.UserId }
      = ((p1, [PeerCall.GetUser req.UserId]), r, e) := by
    simp [recordingServer, NewOrderServer, recordingUserClient, hcall]
  cases e with
  | some err =>
    simp [CreateOrder, hrec, hcall, prescribedCalls]
  | none =>
    have hloop := processItems_recording s hmenu its p1 [PeerCall.GetUser req.UserId]
      { UserID := uint req.UserId, Status := "pending" }
    rcases hrun : CreateOrder.processItems s p1
      { UserID := uint req.UserId, Status := "pending" } (its.map some) with ⟨p2, out⟩
    rw [hrun] at hloop
    simp only at hloop
    cases out with
    | error st => simp [CreateOrder, hrec, hcall, hitems, hloop, hrun, prescribedCalls]
    | panic => simp [CreateOrder, hrec, hcall, hitems, hloop, hrun, prescribedCalls]
    | ok order =>
      obtain ⟨its2, ms, h1, h2, _, _⟩ := processItems_ok_inv s _ _ _ _ _ hrun
      have hits : its2 = its := by
        have := List.map_injective_iff.mpr (Option.some_injective _) h1
        exact this.symm
      subst hits
      rcases hdb : database.Create w.DB order with ⟨db, res⟩
      have hall : ∀ r ∈ menuReplies s.MenuClient p1 its2, r.2 = none := by
        intro r hr
        rw [h2] at hr
        obtain ⟨m, _, hm⟩ := List.mem_map.mp hr
        rw [← hm]; rfl
      cases res with
      | error err =>
        refine ⟨?_, ?_, ?_, ?_, Or.inr ⟨rfl, hall, order, ?_⟩⟩ <;>
          simp [CreateOrder, hrec, hcall, hitems, hloop, hrun, hdb, prescribedCalls]
      | ok saved =>
        refine ⟨?_, ?_, ?_, ?_, Or.inr ⟨rfl, hall, order, ?_⟩⟩ <;>
          simp [CreateOrder, hrec, hcall, hitems, hloop, hrun, hdb, prescribedCalls]

/-! ## Nil dereferences in `CreateOrder` -/

/-- The item loop does not panic when no entry is nil and every lookup that
returns no error returns a menu item. -/
theorem processItems_no_panic {π : Type} (s : OrderServer π)
    (hmenu : ∀ (p : π) (q : menuv1.GetMenuItemRequest),
      (s.MenuClient.GetMenuItem p q).2.2 = none →
        ∃ m, (s.MenuClient.GetMenuItem p q).2 = okReply m) :
    ∀ (items : List (Option orderv1.OrderItemRequest)) (p : π) (order : models.Order),
      (∀ item ∈ items, item ≠ none) →
      (CreateOrder.processItems s p order items).2 ≠ .panic := by
  intro items
  induction items with
  | nil => intro p order _; simp [CreateOrder.processItems]
  | cons item rest ih =>
    intro p order hnil
    cases item with
    | none => exact absurd rfl (hnil none (List.mem_cons_self _ _))
    | some it =>
      have hm := hmenu p { Id := it.MenuItemId }
      rcases hcall : s.MenuClient.GetMenuItem p { Id := it.MenuItemId } with ⟨p1, r, e⟩
      rw [hcall] at hm
      cases e with
      | some err => simp [CreateOrder.processItems, hcall]
      | none =>
        obtain ⟨m, hm⟩ := hm rfl
        simp only [okReply, Prod.mk.injEq, and_true] at hm
        subst hm
        simp only [CreateOrder.processItems, hcall]
        exact ih p1 _ (fun x hx => hnil x (List.mem_cons_of_mem _ hx))

/-- C19: `CreateOrder` never ends in a nil dereference when the item list has
no nil entry and every menu lookup that returns no error returns a response
with a menu item; and there is a run, with a menu lookup that returns no error
and a response whose `MenuItem` is nil, that ends in a nil dereference. -/
theorem createOrder_nil_dereference :
    (∀ (π : Type) (s : OrderServer π) (w : World π) (req : orderv1.CreateOrderRequest),
      (∀ item ∈ req.Items, item ≠ none) →
      (∀ (p : π) (q : menuv1.GetMenuItemRequest),
        (s.MenuClient.GetMenuItem p q).2.2 = none →
          ∃ m, (s.MenuClient.GetMenuItem p q).2 = okReply m) →
      (CreateOrder s w req).2 ≠ .panic) ∧
    ((∀ item ∈ successRequest.Items, item ≠ none) ∧
      (nilItemServer.MenuClient.GetMenuItem 1 { Id := 1 }).2 = (some { MenuItem := none }, none) ∧
      (CreateOrder nilItemServer emptyWorld successRequest).2 = .panic) := by
  constructor
  · intro π s w req hnil hmenu
    rcases hcall : s.UserClient.GetUser w.peers { Id := req.UserId } with ⟨p1, r, e⟩
    cases e with
    | some err => simp [CreateOrder, hcall]
    | none =>
      have hloop := processItems_no_panic s hmenu req.Items p1
        { UserID := uint req.UserId, Status := "pending" } hnil
      rcases hrun : CreateOrder.processItems s p1
        { UserID := uint req.UserId, Status := "pending" } req.Items with ⟨p2, out⟩
      rw [hrun] at hloop
      cases out with
      | error st => simp [CreateOrder, hcall, hrun]
      | panic => exact absurd rfl hloop
      | ok order =>
        rcases hdb : database.Create w.DB order with ⟨db, res⟩
        cases res <;> simp [CreateOrder, hcall, hrun, hdb]
  · refine ⟨by decide, by decide, by decide⟩

/-! ## The later claims on the order service at concrete inputs -/

/-- Witness for C11: order 1 of two is set to "ready"; order 2 stays. -/
theorem updateOrderStatus_changes_status_only_witness :
    UpdateOrderStatus testServer twoOrderWorld readyRequest
        = ((UpdateOrderStatus testServer twoOrderWorld readyRequest).1, .ok readyResponse) ∧
      (∃ o o2 : models.Order,
        twoOrderWorld.DB.lookup readyRequest.Id = some o ∧
        (UpdateOrderStatus testServer twoOrderWorld readyRequest).1.DB.lookup readyRequest.Id
          = some o2 ∧
        o2.ID = o.ID ∧ o2.UserID = o.UserID ∧ o2.OrderItems = o.OrderItems) ∧
      (∀ id : Nat, id ≠ readyRequest.Id →
        (UpdateOrderStatus testServer twoOrderWorld readyRequest).1.DB.lookup id
          = twoOrderWorld.DB.lookup id) :=
  ⟨by decide,
    (updateOrderStatus_changes_status_only testServer twoOrderWorld
      (UpdateOrderStatus testServer twoOrderWorld readyRequest).1 readyRequest readyResponse
      (by decide)).2.1,
    (updateOrderStatus_changes_status_only testServer twoOrderWorld
      (UpdateOrderStatus testServer twoOrderWorld readyRequest).1 readyRequest readyResponse
      (by decide)).2.2.1⟩

/-- The test menu service returns a menu item whenever it returns no error. -/
theorem testMenuClient_replies (p : Nat) (q : menuv1.GetMenuItemRequest)
    (h : (testServer.MenuClient.GetMenuItem p q).2.2 = none) :
    ∃ m, (testServer.MenuClient.GetMenuItem p q).2 = okReply m := by
  by_cases hq : q.Id = 1
  · exact ⟨coffee, by simp [testServer, NewOrderServer, testMenuClient, hq, okReply]⟩
  · simp [testServer, NewOrderServer, testMenuClient, hq] at h

/-- Witness for C18: the first line item fails, the second is never asked for. -/
theorem createOrder_call_sequence_witness :
    firstItemFailsRequest.Items
        = [{ MenuItemId := 999, Quantity := 1 }, { MenuItemId := 1, Quantity := 2 }].map some ∧
      (CreateOrder (recordingServer testServer) { peers := (emptyWorld.peers, []), DB := emptyWorld.DB }
          firstItemFailsRequest).1.peers.2
        = prescribedCalls testServer emptyWorld.peers firstItemFailsRequest.UserId
            [{ MenuItemId := 999, Quantity := 1 }, { MenuItemId := 1, Quantity := 2 }] ∧
      prescribedCalls testServer emptyWorld.peers firstItemFailsRequest.UserId
          [{ MenuItemId := 999, Quantity := 1 }, { MenuItemId := 1, Quantity := 2 }]
        = [PeerCall.GetUser 1, PeerCall.GetMenuItem 999] ∧
      prescribedCalls testServer emptyWorld.peers repeatedItemRequest.UserId
          [{ MenuItemId := 1, Quantity := 0 }, { MenuItemId := 1, Quantity := 3 }]
        = [PeerCall.GetUser 1, PeerCall.GetMenuItem 1, PeerCall.GetMenuItem 1] ∧
      prescribedCalls testServer emptyWorld.peers invalidUserRequest.UserId
          [{ MenuItemId := 1, Quantity := 1 }]
        = [PeerCall.GetUser 999] :=
  ⟨by decide,
    (createOrder_call_sequence testServer emptyWorld firstItemFailsRequest
      [{ MenuItemId := 999, Quantity := 1 }, { MenuItemId := 1, Quantity := 2 }]
      (by decide) testMenuClient_replies).1,
    by decide, by decide, by decide⟩

/-- Witness for C19: the request of `TestCreateOrder_Success` does not panic. -/
theorem createOrder_nil_dereference_witness :
    (∀ item ∈ successRequest.Items, item ≠ none) ∧
      (CreateOrder testServer emptyWorld successRequest).2 ≠ .panic :=
  ⟨by decide,
    createOrder_nil_dereference.1 Nat testServer emptyWorld successRequest (by decide)
      testMenuClient_replies⟩

end OrderService

/-! # The user service and the menu service -/

namespace Services

open OrderService

/-! ## Lists of rows -/

/-- Nothing is found after a map whose values the predicate rejects. -/
theorem find?_map_none {α : Type} (p : α → Bool) (f : α → α) (h : ∀ x, p (f x) = false) :
    ∀ l : List α, (l.map f).find? p = none
  | [] => rfl
  | a :: rest => by simp [List.find?_cons, h a, find?_map_none p f h rest]

/-- A map that only touches what a predicate selects is the identity on a list
in which the predicate finds nothing. -/
theorem map_eq_self_of_find?_none {α : Type} (p : α → Bool) (g : α → α) :
    ∀ l : List α, l.find? p = none → l.map (fun x => if p x then g x else x) = l
  | [], _ => rfl
  | a :: rest, h => by
    cases ha : p a with
    | true => simp [List.find?_cons, ha] at h
    | false =>
      have hrest : rest.find? p = none := by simpa [List.find?_cons, ha] using h
      simp [ha, map_eq_self_of_find?_none p g rest hrest]

theorem countP_eq_zero_of_find?_none {α : Type} (p : α → Bool) (l : List α)
    (h : l.find? p = none) : l.countP p = 0 := by
  rw [List.countP_eq_zero]
  intro a ha
  have := List.find?_eq_none.mp h a ha
  simpa using this

theorem countP_pos_of_find?_some {α : Type} (p : α → Bool) (l : List α) (a : α)
    (h : l.find? p = some a) : l.countP p ≠ 0 := by
  intro h0
  rw [List.countP_eq_zero] at h0
  exact h0 a (List.mem_of_find?_eq_some h) (List.find?_some h)

/-! ## Get by id -/

theorem getUser_of_lookup_none (s : UserService.UserServer) (db : UserService.database.Store)
    (req : userv1.GetUserRequest) (h : db.lookup req.Id = none) :
    (UserService.GetUser s db req).2
      = .error { Code := .NotFound, Message := "user not found" } := by
  cases hf : db.fault with
  | some err => simp [UserService.GetUser, UserService.database.First, hf, status.Errorf]
  | none => simp [UserService.GetUser, UserService.database.First, hf, h, status.Errorf]

theorem getMenuItem_of_lookup_none (s : MenuService.MenuServer)
    (db : MenuService.database.Store) (req : menuv1.GetMenuItemRequest)
    (h : db.lookup req.Id = none) :
    (MenuService.GetMenuItem s db req).2
      = .error { Code := .NotFound, Message := "menu item not found" } := by
  cases hf : db.fault with
  | some err => simp [MenuService.GetMenuItem, MenuService.database.First, hf, status.Errorf]
  | none => simp [MenuService.GetMenuItem, MenuService.database.First, hf, h, status.Errorf]

/-- C12: `GetUser`, `GetMenuItem` and `GetOrder` return the error `NotFound`
for an id that no live row carries, and whatever the store lookup reports, an
error they return has the code `NotFound`, never `Internal`. -/
theorem get_by_id_not_found :
    (∀ (s : UserService.UserServer) (db : UserService.database.Store)
        (req : userv1.GetUserRequest),
      (db.lookup req.Id = none →
        (UserService.GetUser s db req).2
          = .error { Code := .NotFound, Message := "user not found" }) ∧
      (∀ st, (UserService.GetUser s db req).2 = .error st → st.Code = .NotFound) ∧
      (UserService.GetUser s db req).2 ≠ .panic) ∧
    (∀ (s : MenuService.MenuServer) (db : MenuService.database.Store)
        (req : menuv1.GetMenuItemRequest),
      (db.lookup req.Id = none →
        (MenuService.GetMenuItem s db req).2
          = .error { Code := .NotFound, Message := "menu item not found" }) ∧
      (∀ st, (MenuService.GetMenuItem s db req).2 = .error st → st.Code = .NotFound) ∧
      (MenuService.GetMenuItem s db req).2 ≠ .panic) ∧
    (∀ (π : Type) (s : OrderServer π) (w : World π) (req : orderv1.GetOrderRequest),
      (w.DB.lookup req.Id = none →
        (GetOrder s w req).2 = .error { Code := .NotFound, Message := "order not found" }) ∧
      (∀ st, (GetOrder s w req).2 = .error st → st.Code = .NotFound) ∧
      (GetOrder s w req).2 ≠ .panic) := by
  refine ⟨?_, ?_, ?_⟩
  · intro s db req
    cases hf : db.fault with
    | some err => simp [UserService.GetUser, UserService.database.First, hf, status.Errorf]
    | none =>
      cases hl : db.lookup req.Id with
      | none => simp [UserService.GetUser, UserService.database.First, hf, hl, status.Errorf]
      | some u => simp [UserService.GetUser, UserService.database.First, hf, hl]
  · intro s db req
    cases hf : db.fault with
    | some err => simp [MenuService.GetMenuItem, MenuService.database.First, hf, status.Errorf]
    | none =>
      cases hl : db.lookup req.Id with
      | none =>
        simp [MenuService.GetMenuItem, MenuService.database.First, hf, hl, status.Errorf]
      | some u => simp [MenuService.GetMenuItem, MenuService.database.First, hf, hl]
  · intro π s w req
    cases hf : w.DB.fault with
    | some err => simp [GetOrder, database.First, hf, status.Errorf]
    | none =>
      cases hl : w.DB.lookup req.Id with
      | none => simp [GetOrder, database.First, hf, hl, status.Errorf]
      | some u => simp [GetOrder, database.First, hf, hl]

/-! ## Delete by id -/

/-- C13: when the store runs the statement, `DeleteUser` and `DeleteMenuItem`
fail with `NotFound` and leave the table as it was for an id that no live row
carries; for an id that a live row carries they return `Success = true`, and
the get-by-id that follows for that id fails with `NotFound`. -/
theorem delete_by_id :
    (∀ (s : UserService.UserServer) (db : UserService.database.Store)
        (req : userv1.DeleteUserRequest),
      db.fault = none →
      (db.lookup req.Id = none →
        (UserService.DeleteUser s db req).2
            = .error { Code := .NotFound, Message := "user not found" } ∧
          (UserService.DeleteUser s db req).1.users = db.users ∧
          (UserService.DeleteUser s db req).1.nextID = db.nextID) ∧
      (∀ u, db.lookup req.Id = some u →
        (UserService.DeleteUser s db req).2 = .ok { Success := true } ∧
          (UserService.GetUser s (UserService.DeleteUser s db req).1 { Id := req.Id }).2
            = .error { Code := .NotFound, Message := "user not found" })) ∧
    (∀ (s : MenuService.MenuServer) (db : MenuService.database.Store)
        (req : menuv1.DeleteMenuItemRequest),
      db.fault = none →
      (db.lookup req.Id = none →
        (MenuService.DeleteMenuItem s db req).2
            = .error { Code := .NotFound, Message := "menu item not found" } ∧
          (MenuService.DeleteMenuItem s db req).1.menuItems = db.menuItems ∧
          (MenuService.DeleteMenuItem s db req).1.nextID = db.nextID) ∧
      (∀ m, db.lookup req.Id = some m →
        (MenuService.DeleteMenuItem s db req).2 = .ok { Success := true } ∧
          (MenuService.GetMenuItem s (MenuService.DeleteMenuItem s db req).1
              { Id := req.Id }).2
            = .error { Code := .NotFound, Message := "menu item not found" })) := by
  constructor
  · intro s db req hf
    constructor
    · intro hnone
      have hc := countP_eq_zero_of_find?_none _ _ hnone
      have hm := map_eq_self_of_find?_none (UserService.database.hit req.Id)
        (fun u => { u with DeletedAt := some db.now }) db.users hnone
      simp [UserService.DeleteUser, UserService.database.Delete, hf, hc, hm, status.Errorf,
        UserService.database.Store.advance]
    · intro u hsome
      have hc := countP_pos_of_find?_some _ _ _ hsome
      have hgone : (UserService.DeleteUser s db req).1.lookup req.Id = none := by
        simp only [UserService.DeleteUser, UserService.database.Delete, hf]
        split <;>
        · simp only [UserService.database.Store.lookup, UserService.database.Store.advance]
          apply find?_map_none
          intro x
          cases hx : UserService.database.hit req.Id x with
          | true => simp [UserService.database.hit]
          | false => simpa using hx
      refine ⟨by simp [UserService.DeleteUser, UserService.database.Delete, hf, hc], ?_⟩
      exact getUser_of_lookup_none s _ { Id := req.Id } hgone
  · intro s db req hf
    constructor
    · intro hnone
      have hc := countP_eq_zero_of_find?_none _ _ hnone
      have hm := map_eq_self_of_find?_none (MenuService.database.hit req.Id)
        (fun m => { m with DeletedAt := some db.now }) db.menuItems hnone
      simp [MenuService.DeleteMenuItem, MenuService.database.Delete, hf, hc, hm, status.Errorf,
        MenuService.database.Store.advance]
    · intro m hsome
      have hc := countP_pos_of_find?_some _ _ _ hsome
      have hgone : (MenuService.DeleteMenuItem s db req).1.lookup req.Id = none := by
        simp only [MenuService.DeleteMenuItem, MenuService.database.Delete, hf]
        split <;>
        · simp only [MenuService.database.Store.lookup, MenuService.database.Store.advance]
          apply find?_map_none
          intro x
          cases hx : MenuService.database.hit req.Id x with
          | true => simp [MenuService.database.hit]
          | false => simpa using hx
      refine ⟨by simp [MenuService.DeleteMenuItem, MenuService.database.Delete, hf, hc], ?_⟩
      exact getMenuItem_of_lookup_none s _ { Id := req.Id } hgone

/-! ## Update -/

theorem user_lookup_some_inv {db : UserService.database.Store} {id : Nat}
    {u : UserService.models.User} (h : db.lookup id = some u) :
    u ∈ db.users ∧ u.ID = id ∧ u.DeletedAt = none := by
  unfold UserService.database.Store.lookup at h
  have h1 := List.find?_some h
  have h2 := List.mem_of_find?_eq_some h
  simp only [UserService.database.hit, Bool.and_eq_true, decide_eq_true_eq,
    Option.isNone_iff_eq_none] at h1
  exact ⟨h2, h1.1, h1.2⟩

theorem menu_lookup_some_inv {db : MenuService.database.Store} {id : Nat}
    {m : MenuService.models.MenuItem} (h : db.lookup id = some m) :
    m ∈ db.menuItems ∧ m.ID = id ∧ m.DeletedAt = none := by
  unfold MenuService.database.Store.lookup at h
  have h1 := List.find?_some h
  have h2 := List.mem_of_find?_eq_some h
  simp only [MenuService.database.hit, Bool.and_eq_true, decide_eq_true_eq,
    Option.isNone_iff_eq_none] at h1
  exact ⟨h2, h1.1, h1.2⟩

/-- The run of `UpdateUser` on a live row, by what the save of the store does. -/
theorem updateUser_of_lookup (s : UserService.UserServer) (db : UserService.database.Store)
    (req : userv1.UpdateUserRequest) (u : UserService.models.User)
    (hf : db.fault = none) (hl : db.lookup req.Id = some u) :
    UserService.UpdateUser s db req =
      match UserService.database.Save db.advance
          { u with Name := req.Name, Email := req.Email, IsCafeOwner := req.IsCafeOwner } with
      | (db2, .error err) =>
        (db2, .error { Code := .Internal, Message := "failed to update user: " ++ err })
      | (db2, .ok user) => (db2, .ok { User := some (UserService.pbUser user) }) := by
  simp only [UserService.UpdateUser, UserService.database.First, hf, hl, status.Errorf]

/-- The run of `UpdateMenuItem` on a live row, by what the save of the store does. -/
theorem updateMenuItem_of_lookup (s : MenuService.MenuServer)
    (db : MenuService.database.Store) (req : menuv1.UpdateMenuItemRequest)
    (m : MenuService.models.MenuItem)
    (hf : db.fault = none) (hl : db.lookup req.Id = some m) :
    MenuService.UpdateMenuItem s db req =
      match MenuService.database.Save db.advance
          { m with Name := req.Name, Description := req.Description, Price := req.Price } with
      | (db2, .error err) =>
        (db2, .error { Code := .Internal, Message := "failed to update menu item: " ++ err })
      | (db2, .ok menuItem) => (db2, .ok { MenuItem := some (MenuService.pbMenuItem menuItem) }) := by
  simp only [MenuService.UpdateMenuItem, MenuService.database.First, hf, hl, status.Errorf]

/-- A save of the user store that succeeds returns the record under the store
clock and leaves it as the live row of its primary key. -/
theorem user_save_ok (db : UserService.database.Store) (user saved : UserService.models.User)
    (db2 : UserService.database.Store) (hlive : user.DeletedAt = none)
    (hmem : ∃ x ∈ db.users, x.ID = user.ID ∧ x.DeletedAt = none)
    (h : UserService.database.Save db user = (db2, .ok saved)) :
    saved = { user with UpdatedAt := db.now } ∧ db2.lookup user.ID = some saved := by
  unfold UserService.database.Save at h
  cases hf : db.fault with
  | some err => simp [hf] at h
  | none =>
    cases hc : db.emailTaken user.ID user.Email with
    | true => simp [hf, hc] at h
    | false =>
      have hany : db.users.any (UserService.database.hit user.ID) = true := by
        rw [List.any_eq_true]
        obtain ⟨x, hx, hxid, hxl⟩ := hmem
        exact ⟨x, hx, by simp [UserService.database.hit, hxid, hxl]⟩
      simp only [hf, hc, hany, if_true, Bool.false_eq_true, if_false, Prod.mk.injEq,
        Except.ok.injEq] at h
      obtain ⟨hdb, hs⟩ := h
      refine ⟨hs.symm, ?_⟩
      rw [← hdb, ← hs]
      exact find?_map_replace (UserService.database.hit user.ID) _
        (by simp [UserService.database.hit, hlive]) db.users hany

/-- A save of the menu store that succeeds returns the record under the store
clock and leaves its row as the live row of its primary key. -/
theorem menu_save_ok (db : MenuService.database.Store)
    (menuItem saved : MenuService.models.MenuItem)
    (db2 : MenuService.database.Store) (hlive : menuItem.DeletedAt = none)
    (hmem : ∃ x ∈ db.menuItems, x.ID = menuItem.ID ∧ x.DeletedAt = none)
    (h : MenuService.database.Save db menuItem = (db2, .ok saved)) :
    saved = { menuItem with UpdatedAt := db.now } ∧
      db2.lookup menuItem.ID = some (MenuService.database.stored saved) := by
  unfold MenuService.database.Save at h
  cases hf : db.fault with
  | some err => simp [hf] at h
  | none =>
    have hany : db.menuItems.any (MenuService.database.hit menuItem.ID) = true := by
      rw [List.any_eq_true]
      obtain ⟨x, hx, hxid, hxl⟩ := hmem
      exact ⟨x, hx, by simp [MenuService.database.hit, hxid, hxl]⟩
    simp only [hf, hany, if_true, Prod.mk.injEq, Except.ok.injEq] at h
    obtain ⟨hdb, hs⟩ := h
    refine ⟨hs.symm, ?_⟩
    rw [← hdb, ← hs]
    exact find?_map_replace (MenuService.database.hit menuItem.ID) _
      (by simp [MenuService.database.hit, MenuService.database.stored, hlive])
      db.menuItems hany

/-- The three ways `UpdateUser` ends. -/
theorem updateUser_cases (s : UserService.UserServer) (db : UserService.database.Store)
    (req : userv1.UpdateUserRequest) :
    ((db.fault ≠ none ∨ db.lookup req.Id = none) ∧
      (UserService.UpdateUser s db req).2
        = .error { Code := .NotFound, Message := "user not found" }) ∨
    (∃ u err, db.fault = none ∧ db.lookup req.Id = some u ∧
      (UserService.database.Save db.advance
        { u with Name := req.Name, Email := req.Email, IsCafeOwner := req.IsCafeOwner }).2
          = .error err ∧
      (UserService.UpdateUser s db req).2
        = .error { Code := .Internal, Message := "failed to update user: " ++ err }) ∨
    (∃ u db2, db.fault = none ∧ db.lookup req.Id = some u ∧
      UserService.UpdateUser s db req =
        (db2, .ok { User := some (UserService.pbUser
          { u with Name := req.Name, Email := req.Email, IsCafeOwner := req.IsCafeOwner,
                   UpdatedAt := db.now }) }) ∧
      db2.lookup req.Id = some
        { u with Name := req.Name, Email := req.Email, IsCafeOwner := req.IsCafeOwner,
                 UpdatedAt := db.now }) := by
  cases hf : db.fault with
  | some err =>
    left
    exact ⟨Or.inl (by simp), by
      simp [UserService.UpdateUser, UserService.database.First, hf, status.Errorf]⟩
  | none =>
    cases hl : db.lookup req.Id with
    | none =>
      left
      exact ⟨Or.inr rfl, by
        simp [UserService.UpdateUser, UserService.database.First, hf, hl, status.Errorf]⟩
    | some u =>
      right
      obtain ⟨hmem, hid, hlive⟩ := user_lookup_some_inv hl
      have hrun := updateUser_of_lookup s db req u hf hl
      rcases hsave : UserService.database.Save db.advance
        { u with Name := req.Name, Email := req.Email, IsCafeOwner := req.IsCafeOwner }
        with ⟨db2, res⟩
      rw [hsave] at hrun
      cases res with
      | error err =>
        left
        exact ⟨u, err, rfl, rfl, by rw [hsave], by rw [hrun]⟩
      | ok saved =>
        right
        obtain ⟨hs, hlook⟩ := user_save_ok db.advance
          { u with Name := req.Name, Email := req.Email, IsCafeOwner := req.IsCafeOwner }
          saved db2 hlive ⟨u, hmem, rfl, hlive⟩ hsave
        simp only at hlook hrun
        rw [hid] at hlook
        refine ⟨u, db2, rfl, rfl, ?_, ?_⟩
        · rw [hrun, hs]; rfl
        · rw [hlook, hs]; rfl

/-- The three ways `UpdateMenuItem` ends. -/
theorem updateMenuItem_cases (s : MenuService.MenuServer) (db : MenuService.database.Store)
    (req : menuv1.UpdateMenuItemRequest) :
    ((db.fault ≠ none ∨ db.lookup req.Id = none) ∧
      (MenuService.UpdateMenuItem s db req).2
        = .error { Code := .NotFound, Message := "menu item not found" }) ∨
    (∃ m err, db.fault = none ∧ db.lookup req.Id = some m ∧
      (MenuService.database.Save db.advance
        { m with Name := req.Name, Description := req.Description, Price := req.Price }).2
          = .error err ∧
      (MenuService.UpdateMenuItem s db req).2
        = .error { Code := .Internal, Message := "failed to update menu item: " ++ err }) ∨
    (∃ m db2, db.fault = none ∧ db.lookup req.Id = some m ∧
      MenuService.UpdateMenuItem s db req =
        (db2, .ok { MenuItem := some (MenuService.pbMenuItem
          { m with Name := req.Name, Description := req.Description, Price := req.Price,
                   UpdatedAt := db.now }) }) ∧
      db2.lookup req.Id = some
        { m with Name := req.Name, Description := req.Description,
                 Price := gorm.columnValue req.Price, UpdatedAt := db.now }) := by
  cases hf : db.fault with
  | some err =>
    left
    exact ⟨Or.inl (by simp), by
      simp [MenuService.UpdateMenuItem, MenuService.database.First, hf, status.Errorf]⟩
  | none =>
    cases hl : db.lookup req.Id with
    | none =>
      left
      exact ⟨Or.inr rfl, by
        simp [MenuService.UpdateMenuItem, MenuService.database.First, hf, hl, status.Errorf]⟩
    | some m =>
      right
      obtain ⟨hmem, hid, hlive⟩ := menu_lookup_some_inv hl
      have hrun := updateMenuItem_of_lookup s db req m hf hl
      rcases hsave : MenuService.database.Save db.advance
        { m with Name := req.Name, Description := req.Description, Price := req.Price }
        with ⟨db2, res⟩
      rw [hsave] at hrun
      cases res with
      | error err =>
        left
        exact ⟨m, err, rfl, rfl, by rw [hsave], by rw [hrun]⟩
      | ok saved =>
        right
        obtain ⟨hs, hlook⟩ := menu_save_ok db.advance
          { m with Name := req.Name, Description := req.Description, Price := req.Price }
          saved db2 hlive ⟨m, hmem, rfl, hlive⟩ hsave
        simp only at hlook hrun
        rw [hid] at hlook
        refine ⟨m, db2, rfl, rfl, ?_, ?_⟩
        · rw [hrun, hs]; rfl
        · rw [hlook, hs]; rfl

theorem uint32_of_lt {n : Nat} (h : n < 2 ^ 32) : uint32 n = n := by
  unfold uint32
  omega

/-- C14 (amended): `UpdateUser` and `UpdateMenuItem` end in exactly one of
three ways, each under its own condition. When the lookup of the store fails
or no live row has the id, the error is `NotFound`. When the row is found and
the save of the store fails (the statement fails or, for a user, another row
holds the new email), the error is `Internal`. When the row is found and the
save runs, the result is the full record after the overwrite, with the id of
the request and every mutable field equal to the value of the request, and the
row of that id then holds these values (the price as its column gives it
back). -/
theorem update_outcomes :
    (∀ (s : UserService.UserServer) (db : UserService.database.Store)
        (req : userv1.UpdateUserRequest),
      req.Id < 2 ^ 32 →
      ((db.fault ≠ none ∨ db.lookup req.Id = none) →
        (UserService.UpdateUser s db req).2
          = .error { Code := .NotFound, Message := "user not found" }) ∧
      (∀ u : UserService.models.User, db.fault = none → db.lookup req.Id = some u →
        (∀ err : Error, db.advance.fault = some err →
          (UserService.UpdateUser s db req).2
            = .error { Code := .Internal, Message := "failed to update user: " ++ err }) ∧
        (db.advance.fault = none → db.emailTaken req.Id req.Email = true →
          (UserService.UpdateUser s db req).2
            = .error { Code := .Internal,
                       Message := "failed to update user: "
                         ++ UserService.database.uniqueViolation }) ∧
        (db.advance.fault = none → db.emailTaken req.Id req.Email = false →
          ∃ (r : userv1.User) (row : UserService.models.User),
            (UserService.UpdateUser s db req).2 = .ok { User := some r } ∧
            r.Id = req.Id ∧ r.Name = req.Name ∧ r.Email = req.Email ∧
            r.IsCafeOwner = req.IsCafeOwner ∧
            (UserService.UpdateUser s db req).1.lookup req.Id = some row ∧
            row.Name = req.Name ∧ row.Email = req.Email ∧
            row.IsCafeOwner = req.IsCafeOwner))) ∧
    (∀ (s : MenuService.MenuServer) (db : MenuService.database.Store)
        (req : menuv1.UpdateMenuItemRequest),
      req.Id < 2 ^ 32 →
      ((db.fault ≠ none ∨ db.lookup req.Id = none) →
        (MenuService.UpdateMenuItem s db req).2
          = .error { Code := .NotFound, Message := "menu item not found" }) ∧
      (∀ m : MenuService.models.MenuItem, db.fault = none → db.lookup req.Id = some m →
        (∀ err : Error, db.advance.fault = some err →
          (MenuService.UpdateMenuItem s db req).2
            = .error { Code := .Internal,
                       Message := "failed to update menu item: " ++ err }) ∧
        (db.advance.fault = none →
          ∃ (r : menuv1.MenuItem) (row : MenuService.models.MenuItem),
            (MenuService.UpdateMenuItem s db req).2 = .ok { MenuItem := some r } ∧
            r.Id = req.Id ∧ r.Name = req.Name ∧ r.Description = req.Description ∧
            r.Price = req.Price ∧
            (MenuService.UpdateMenuItem s db req).1.lookup req.Id = some row ∧
            row.Name = req.Name ∧ row.Description = req.Description ∧
            row.Price = gorm.columnValue req.Price))) := by
  constructor
  · intro s db req hid
    constructor
    · intro hno
      rcases updateUser_cases s db req with ⟨_, hout⟩ | ⟨u, err, hf, hl, _, _⟩ |
        ⟨u, db2, hf, hl, _, _⟩
      · exact hout
      · rcases hno with h | h
        · exact absurd hf h
        · rw [hl] at h; cases h
      · rcases hno with h | h
        · exact absurd hf h
        · rw [hl] at h; cases h
    · intro u hf hl
      have hrun := updateUser_of_lookup s db req u hf hl
      have huid := (user_lookup_some_inv hl).2.1
      refine ⟨?_, ?_, ?_⟩
      · intro err he
        rw [hrun]
        simp [UserService.database.Save, he]
      · intro hf2 hc
        have hc2 : db.advance.emailTaken u.ID req.Email = true := by rw [huid]; exact hc
        rw [hrun]
        simp [UserService.database.Save, hf2, hc2]
      · intro hf2 hc
        have hc2 : db.advance.emailTaken u.ID req.Email = false := by rw [huid]; exact hc
        rcases updateUser_cases s db req with ⟨hno, _⟩ | ⟨u2, err, _, hl2, hsave, _⟩ |
          ⟨u2, db2, _, hl2, hrun2, hrow⟩
        · rcases hno with h | h
          · exact absurd hf h
          · rw [hl] at h; cases h
        · rw [hl] at hl2
          cases hl2
          simp [UserService.database.Save, hf2, hc2] at hsave
        · rw [hl] at hl2
          cases hl2
          refine ⟨_, _, (by rw [hrun2]), ?_, rfl, rfl, rfl, (by rw [hrun2]; exact hrow),
            rfl, rfl, rfl⟩
          simp only [UserService.pbUser, huid]
          exact uint32_of_lt hid
  · intro s db req hid
    constructor
    · intro hno
      rcases updateMenuItem_cases s db req with ⟨_, hout⟩ | ⟨m, err, hf, hl, _, _⟩ |
        ⟨m, db2, hf, hl, _, _⟩
      · exact hout
      · rcases hno with h | h
        · exact absurd hf h
        · rw [hl] at h; cases h
      · rcases hno with h | h
        · exact absurd hf h
        · rw [hl] at h; cases h
    · intro m hf hl
      have hrun := updateMenuItem_of_lookup s db req m hf hl
      have hmid := (menu_lookup_some_inv hl).2.1
      refine ⟨?_, ?_⟩
      · intro err he
        rw [hrun]
        simp [MenuService.database.Save, he]
      · intro hf2
        rcases updateMenuItem_cases s db req with ⟨hno, _⟩ | ⟨m2, err, _, hl2, hsave, _⟩ |
          ⟨m2, db2, _, hl2, hrun2, hrow⟩
        · rcases hno with h | h
          · exact absurd hf h
          · rw [hl] at h; cases h
        · rw [hl] at hl2
          cases hl2
          simp [MenuService.database.Save, hf2] at hsave
        · rw [hl] at hl2
          cases hl2
          refine ⟨_, _, (by rw [hrun2]), ?_, rfl, rfl, rfl, (by rw [hrun2]; exact hrow),
            rfl, rfl, rfl⟩
          simp only [MenuService.pbMenuItem, hmid]
          exact uint32_of_lt hid

/-! ## Create -/

/-- A create of the user store that succeeds appends the inserted record. -/
theorem user_create_ok (db db1 : UserService.database.Store)
    (user saved : UserService.models.User)
    (h : UserService.database.Create db user = (db1, .ok saved)) :
    saved = UserService.database.inserted db user ∧ db1.users = db.users ++ [saved] ∧
      db.fault = none ∧ db1.faults = db.faults.tail := by
  unfold UserService.database.Create at h
  cases hf : db.fault with
  | some err => simp [hf] at h
  | none =>
    cases hc : db.users.any (fun u => decide (u.Email = user.Email)) with
    | true => simp [hf, hc] at h
    | false =>
      simp only [hf, hc, Bool.false_eq_true, if_false, Prod.mk.injEq, Except.ok.injEq] at h
      obtain ⟨hdb, hs⟩ := h
      subst hs
      refine ⟨rfl, ?_, rfl, ?_⟩
      · rw [← hdb]
      · rw [← hdb]; rfl

/-- A create of the menu store that succeeds appends the row of the inserted
record. -/
theorem menu_create_ok (db db1 : MenuService.database.Store)
    (menuItem saved : MenuService.models.MenuItem)
    (h : MenuService.database.Create db menuItem = (db1, .ok saved)) :
    saved = MenuService.database.inserted db menuItem ∧
      db1.menuItems = db.menuItems ++ [MenuService.database.stored saved] ∧
      db.fault = none ∧ db1.faults = db.faults.tail := by
  unfold MenuService.database.Create at h
  cases hf : db.fault with
  | some err => simp [hf] at h
  | none =>
    simp only [hf, Prod.mk.injEq, Except.ok.injEq] at h
    obtain ⟨hdb, hs⟩ := h
    subst hs
    refine ⟨rfl, ?_, rfl, ?_⟩
    · rw [← hdb]
    · rw [← hdb]; rfl

theorem uint32_ne_zero {n : Nat} (h0 : 0 < n) (h : n < 2 ^ 32) : uint32 n ≠ 0 := by
  rw [uint32_of_lt h]
  omega

/-- C15 (amended): when the create of the store succeeds, `CreateUser` returns
a user with the name, the email and the owner flag of the request, and
`CreateMenuItem` a menu item with the name, the description and the price of
the request; the returned id is not zero when the id the store generated is
positive and below 2^32; when the create of the store fails, both return no
record and an error with code `Internal`. -/
theorem create_returns_record :
    (∀ (s : UserService.UserServer) (db : UserService.database.Store)
        (req : userv1.CreateUserRequest),
      (∀ saved,
        (UserService.database.Create db
          { Name := req.Name, Email := req.Email, IsCafeOwner := req.IsCafeOwner }).2
            = .ok saved →
        ∃ u : userv1.User, (UserService.CreateUser s db req).2 = .ok { User := some u } ∧
          u.Name = req.Name ∧ u.Email = req.Email ∧ u.IsCafeOwner = req.IsCafeOwner ∧
          (0 < db.nextID → db.nextID < 2 ^ 32 → u.Id ≠ 0)) ∧
      (∀ err,
        (UserService.database.Create db
          { Name := req.Name, Email := req.Email, IsCafeOwner := req.IsCafeOwner }).2
            = .error err →
        (UserService.CreateUser s db req).2
          = .error { Code := .Internal, Message := "failed to create user: " ++ err })) ∧
    (∀ (s : MenuService.MenuServer) (db : MenuService.database.Store)
        (req : menuv1.CreateMenuItemRequest),
      (∀ saved,
        (MenuService.database.Create db
          { Name := req.Name, Description := req.Description, Price := req.Price }).2
            = .ok saved →
        ∃ m : menuv1.MenuItem,
          (MenuService.CreateMenuItem s db req).2 = .ok { MenuItem := some m } ∧
          m.Name = req.Name ∧ m.Description = req.Description ∧ m.Price = req.Price ∧
          (0 < db.nextID → db.nextID < 2 ^ 32 → m.Id ≠ 0)) ∧
      (∀ err,
        (MenuService.database.Create db
          { Name := req.Name, Description := req.Description, Price := req.Price }).2
            = .error err →
        (MenuService.CreateMenuItem s db req).2
          = .error { Code := .Internal, Message := "failed to create menu item: " ++ err })) := by
  constructor
  · intro s db req
    rcases hc : UserService.database.Create db
      { Name := req.Name, Email := req.Email, IsCafeOwner := req.IsCafeOwner } with ⟨db1, res⟩
    constructor
    · intro saved hs
      simp only at hs
      subst hs
      obtain ⟨hsaved, _, _, _⟩ := user_create_ok _ _ _ _ hc
      refine ⟨UserService.pbUser saved, by simp [UserService.CreateUser, hc], ?_, ?_, ?_, ?_⟩
      · rw [hsaved]; rfl
      · rw [hsaved]; rfl
      · rw [hsaved]; rfl
      · intro h0 h32
        rw [hsaved]
        exact uint32_ne_zero h0 h32
    · intro err he
      simp only at he
      subst he
      simp [UserService.CreateUser, hc, status.Errorf]
  · intro s db req
    rcases hc : MenuService.database.Create db
      { Name := req.Name, Description := req.Description, Price := req.Price } with ⟨db1, res⟩
    constructor
    · intro saved hs
      simp only at hs
      subst hs
      obtain ⟨hsaved, _, _, _⟩ := menu_create_ok _ _ _ _ hc
      refine ⟨MenuService.pbMenuItem saved, by simp [MenuService.CreateMenuItem, hc],
        ?_, ?_, ?_, ?_⟩
      · rw [hsaved]; rfl
      · rw [hsaved]; rfl
      · rw [hsaved]; rfl
      · intro h0 h32
        rw [hsaved]
        exact uint32_ne_zero h0 h32
    · intro err he
      simp only at he
      subst he
      simp [MenuService.CreateMenuItem, hc, status.Errorf]

/-- C16 (amended): `CreateUser` and `CreateMenuItem` do not validate the
request: whatever its fields are, empty ones included, the call succeeds when
the store accepts the record (the statement runs and, for a user, no row holds
the email), and every error they return has the code `Internal`. -/
theorem create_does_not_validate :
    (∀ (s : UserService.UserServer) (db : UserService.database.Store)
        (req : userv1.CreateUserRequest),
      (db.fault = none → (∀ u ∈ db.users, u.Email ≠ req.Email) →
        ∃ resp, (UserService.CreateUser s db req).2 = .ok resp) ∧
      (∀ st, (UserService.CreateUser s db req).2 = .error st → st.Code = .Internal) ∧
      (UserService.CreateUser s db req).2 ≠ .panic) ∧
    (∀ (s : MenuService.MenuServer) (db : MenuService.database.Store)
        (req : menuv1.CreateMenuItemRequest),
      (db.fault = none → ∃ resp, (MenuService.CreateMenuItem s db req).2 = .ok resp) ∧
      (∀ st, (MenuService.CreateMenuItem s db req).2 = .error st → st.Code = .Internal) ∧
      (MenuService.CreateMenuItem s db req).2 ≠ .panic) := by
  constructor
  · intro s db req
    cases hf : db.fault with
    | some err =>
      simp [UserService.CreateUser, UserService.database.Create, hf, status.Errorf]
    | none =>
      cases hc : db.users.any (fun u => decide (u.Email = req.Email)) with
      | true =>
        refine ⟨?_, ?_, ?_⟩
        · intro _ hfree
          rw [List.any_eq_true] at hc
          obtain ⟨u, hu, he⟩ := hc
          exact absurd (by simpa using he) (hfree u hu)
        · simp [UserService.CreateUser, UserService.database.Create, hf, hc, status.Errorf]
        · simp [UserService.CreateUser, UserService.database.Create, hf, hc]
      | false =>
        simp [UserService.CreateUser, UserService.database.Create, hf, hc]
  · intro s db req
    cases hf : db.fault with
    | some err =>
      simp [MenuService.CreateMenuItem, MenuService.database.Create, hf, status.Errorf]
    | none => simp [MenuService.CreateMenuItem, MenuService.database.Create, hf]

/-! ## List all -/

/-- A successful `CreateUser` adds one live row. -/
theorem createUser_live (s : UserService.UserServer) (db db1 : UserService.database.Store)
    (req : userv1.CreateUserRequest) (resp : userv1.CreateUserResponse)
    (h : UserService.CreateUser s db req = (db1, .ok resp)) :
    db1.live.length = db.live.length + 1 := by
  rcases hc : UserService.database.Create db
    { Name := req.Name, Email := req.Email, IsCafeOwner := req.IsCafeOwner } with ⟨d, res⟩
  cases res with
  | error err => simp [UserService.CreateUser, hc] at h
  | ok saved =>
    simp only [UserService.CreateUser, hc, Prod.mk.injEq, Outcome.ok.injEq] at h
    obtain ⟨hsaved, hrows, _, _⟩ := user_create_ok _ _ _ _ hc
    rw [← h.1]
    simp [UserService.database.Store.live, hrows, List.filter_append, hsaved,
      UserService.database.inserted]

/-- A successful `CreateMenuItem` adds one live row. -/
theorem createMenuItem_live (s : MenuService.MenuServer)
    (db db1 : MenuService.database.Store)
    (req : menuv1.CreateMenuItemRequest) (resp : menuv1.CreateMenuItemResponse)
    (h : MenuService.CreateMenuItem s db req = (db1, .ok resp)) :
    db1.live.length = db.live.length + 1 := by
  rcases hc : MenuService.database.Create db
    { Name := req.Name, Description := req.Description, Price := req.Price } with ⟨d, res⟩
  cases res with
  | error err => simp [MenuService.CreateMenuItem, hc] at h
  | ok saved =>
    simp only [MenuService.CreateMenuItem, hc, Prod.mk.injEq, Outcome.ok.injEq] at h
    obtain ⟨hsaved, hrows, _, _⟩ := menu_create_ok _ _ _ _ hc
    rw [← h.1]
    simp [MenuService.database.Store.live, hrows, List.filter_append, hsaved,
      MenuService.database.inserted, MenuService.database.stored]

/-- A successful `CreateOrder` adds one live row. -/
theorem createOrder_live {π : Type} (s : OrderServer π) (w w1 : World π)
    (req : orderv1.CreateOrderRequest) (resp : orderv1.CreateOrderResponse)
    (h : CreateOrder s w req = (w1, .ok resp)) :
    (w1.DB.orders.filter (fun o => o.DeletedAt.isNone)).length
      = (w.DB.orders.filter (fun o => o.DeletedAt.isNone)).length + 1 := by
  obtain ⟨its, ms, _, _, _, hf, _, hw⟩ := createOrder_ok_inv s w w1 req resp h
  rw [hw]
  simp [database.Create, hf, List.filter_append, database.inserted, database.stored, builtOrder,
    database.Store.advance]

theorem createUsers_live (s : UserService.UserServer) :
    ∀ (reqs : List userv1.CreateUserRequest) (db db1 : UserService.database.Store),
      UserService.createUsers s db reqs = some db1 →
      db1.live.length = db.live.length + reqs.length
  | [], db, db1, h => by
    simp only [UserService.createUsers, Option.some.injEq] at h
    simp [h]
  | req :: rest, db, db1, h => by
    rcases hc : UserService.CreateUser s db req with ⟨d, out⟩
    cases out with
    | ok resp =>
      simp only [UserService.createUsers, hc] at h
      rw [createUsers_live s rest d db1 h, createUser_live s db d req resp hc, List.length_cons]
      omega
    | error st => simp [UserService.createUsers, hc] at h
    | panic => simp [UserService.createUsers, hc] at h

theorem createMenuItems_live (s : MenuService.MenuServer) :
    ∀ (reqs : List menuv1.CreateMenuItemRequest) (db db1 : MenuService.database.Store),
      MenuService.createMenuItems s db reqs = some db1 →
      db1.live.length = db.live.length + reqs.length
  | [], db, db1, h => by
    simp only [MenuService.createMenuItems, Option.some.injEq] at h
    simp [h]
  | req :: rest, db, db1, h => by
    rcases hc : MenuService.CreateMenuItem s db req with ⟨d, out⟩
    cases out with
    | ok resp =>
      simp only [MenuService.createMenuItems, hc] at h
      rw [createMenuItems_live s rest d db1 h, createMenuItem_live s db d req resp hc,
        List.length_cons]
      omega
    | error st => simp [MenuService.createMenuItems, hc] at h
    | panic => simp [MenuService.createMenuItems, hc] at h

theorem createOrders_live {π : Type} (s : OrderServer π) :
    ∀ (reqs : List orderv1.CreateOrderRequest) (w w1 : World π),
      createOrders s w reqs = some w1 →
      (w1.DB.orders.filter (fun o => o.DeletedAt.isNone)).length
        = (w.DB.orders.filter (fun o => o.DeletedAt.isNone)).length + reqs.length
  | [], w, w1, h => by
    simp only [createOrders, Option.some.injEq] at h
    simp [h]
  | req :: rest, w, w1, h => by
    rcases hc : CreateOrder s w req with ⟨d, out⟩
    cases out with
    | ok resp =>
      simp only [createOrders, hc] at h
      rw [createOrders_live s rest d w1 h, createOrder_live s w d req resp hc, List.length_cons]
      omega
    | error st => simp [createOrders, hc] at h
    | panic => simp [createOrders, hc] at h

/-- C17: when the store runs the statement, `GetUsers`, `GetMenuItems` and
`GetOrders` return one entry per live row, in the order of the table, with the
fields of the entry copied from the row; on a store without rows the result is
the empty collection; and after n successful creates on a store without rows
the collection has n entries. -/
theorem list_all_entries :
    (∀ (s : UserService.UserServer) (db : UserService.database.Store)
        (req : userv1.GetUsersRequest),
      db.fault = none →
      (UserService.GetUsers s db req).2 = .ok { Users := db.live.map (fun u =>
          { Id := uint32 u.ID, Name := u.Name, Email := u.Email, IsCafeOwner := u.IsCafeOwner,
            CreatedAt := timeString u.CreatedAt, UpdatedAt := timeString u.UpdatedAt }) } ∧
      (db.users = [] → (UserService.GetUsers s db req).2 = .ok { Users := [] }) ∧
      (∀ (db0 : UserService.database.Store) (reqs : List userv1.CreateUserRequest),
        db0.users = [] → UserService.createUsers s db0 reqs = some db →
        ∃ resp, (UserService.GetUsers s db req).2 = .ok resp ∧
          resp.Users.length = reqs.length)) ∧
    (∀ (s : MenuService.MenuServer) (db : MenuService.database.Store)
        (req : menuv1.GetMenuItemsRequest),
      db.fault = none →
      (MenuService.GetMenuItems s db req).2 = .ok { MenuItems := db.live.map (fun m =>
          { Id := uint32 m.ID, Name := m.Name, Description := m.Description, Price := m.Price,
            CreatedAt := timeString m.CreatedAt, UpdatedAt := timeString m.UpdatedAt }) } ∧
      (db.menuItems = [] → (MenuService.GetMenuItems s db req).2 = .ok { MenuItems := [] }) ∧
      (∀ (db0 : MenuService.database.Store) (reqs : List menuv1.CreateMenuItemRequest),
        db0.menuItems = [] → MenuService.createMenuItems s db0 reqs = some db →
        ∃ resp, (MenuService.GetMenuItems s db req).2 = .ok resp ∧
          resp.MenuItems.length = reqs.length)) ∧
    (∀ (π : Type) (s : OrderServer π) (w : World π) (req : orderv1.GetOrdersRequest),
      w.DB.fault = none →
      (GetOrders s w req).2 = .ok { Orders :=
        (w.DB.orders.filter (fun o => o.DeletedAt.isNone)).map (fun o =>
          { Id := uint32 o.ID, UserId := uint32 o.UserID, Status := o.Status,
            OrderItems := o.OrderItems.map (fun item =>
              { Id := uint32 item.ID, MenuItemId := uint32 item.MenuItemID,
                MenuItemName := item.MenuItemName, Quantity := uint32 item.Quantity,
                Price := item.Price }),
            CreatedAt := timeString o.CreatedAt, UpdatedAt := timeString o.UpdatedAt }) } ∧
      (w.DB.orders = [] → (GetOrders s w req).2 = .ok { Orders := [] }) ∧
      (∀ (w0 : World π) (reqs : List orderv1.CreateOrderRequest),
        w0.DB.orders = [] → createOrders s w0 reqs = some w →
        ∃ resp, (GetOrders s w req).2 = .ok resp ∧ resp.Orders.length = reqs.length)) := by
  refine ⟨?_, ?_, ?_⟩
  · intro s db req hf
    have hrun : (UserService.GetUsers s db req).2
        = .ok { Users := db.live.map UserService.pbUser } := by
      simp [UserService.GetUsers, UserService.database.Find, hf]
    refine ⟨hrun, ?_, ?_⟩
    · intro hempty
      rw [hrun]
      simp [UserService.database.Store.live, hempty]
    · intro db0 reqs hempty hcreated
      refine ⟨_, hrun, ?_⟩
      have hlen := createUsers_live s reqs db0 db hcreated
      simp only [List.length_map, hlen]
      simp [UserService.database.Store.live, hempty]
  · intro s db req hf
    have hrun : (MenuService.GetMenuItems s db req).2
        = .ok { MenuItems := db.live.map MenuService.pbMenuItem } := by
      simp [MenuService.GetMenuItems, MenuService.database.Find, hf]
    refine ⟨hrun, ?_, ?_⟩
    · intro hempty
      rw [hrun]
      simp [MenuService.database.Store.live, hempty]
    · intro db0 reqs hempty hcreated
      refine ⟨_, hrun, ?_⟩
      have hlen := createMenuItems_live s reqs db0 db hcreated
      simp only [List.length_map, hlen]
      simp [MenuService.database.Store.live, hempty]
  · intro π s w req hf
    have hrun : (GetOrders s w req).2
        = .ok { Orders := (w.DB.orders.filter (fun o => o.DeletedAt.isNone)).map pbOrder } := by
      simp [GetOrders, database.Find, hf]
    refine ⟨hrun, ?_, ?_⟩
    · intro hempty
      rw [hrun]
      simp [hempty]
    · intro w0 reqs hempty hcreated
      refine ⟨_, hrun, ?_⟩
      have hlen := createOrders_live s reqs w0 w hcreated
      simp only [List.length_map, hlen]
      simp [hempty]

/-! ## The claims on the user and the menu service at concrete inputs -/

/-- Witness for C12: the id 9999 of `TestGetUser` in each of the three stores. -/
theorem get_by_id_not_found_witness :
    (UserService.twoUserStore.lookup 9999 = none ∧
      (UserService.GetUser UserService.NewUserServer UserService.twoUserStore { Id := 9999 }).2
        = .error { Code := .NotFound, Message := "user not found" }) ∧
    (MenuService.twoItemStore.lookup 9999 = none ∧
      (MenuService.GetMenuItem MenuService.NewMenuServer MenuService.twoItemStore
          { Id := 9999 }).2
        = .error { Code := .NotFound, Message := "menu item not found" }) ∧
    (oneOrderWorld.DB.lookup 9999 = none ∧
      (GetOrder testServer oneOrderWorld { Id := 9999 }).2
        = .error { Code := .NotFound, Message := "order not found" }) :=
  ⟨⟨by decide,
      (get_by_id_not_found.1 UserService.NewUserServer UserService.twoUserStore
        { Id := 9999 }).1 (by decide)⟩,
    ⟨by decide,
      (get_by_id_not_found.2.1 MenuService.NewMenuServer MenuService.twoItemStore
        { Id := 9999 }).1 (by decide)⟩,
    ⟨by decide,
      (get_by_id_not_found.2.2 Nat testServer oneOrderWorld { Id := 9999 }).1 (by decide)⟩⟩

/-- Witness for C13: user 2 and menu item 2 are deleted and then not found; the
id 9999 is not found and the tables stay. -/
theorem delete_by_id_witness :
    (UserService.twoUserStore.fault = none ∧ UserService.twoUserStore.lookup 9999 = none ∧
      (UserService.DeleteUser UserService.NewUserServer UserService.twoUserStore
          { Id := 9999 }).2
        = .error { Code := .NotFound, Message := "user not found" } ∧
      (UserService.DeleteUser UserService.NewUserServer UserService.twoUserStore
          { Id := 9999 }).1.users = UserService.twoUserStore.users) ∧
    (UserService.twoUserStore.lookup 2 = some UserService.jane ∧
      (UserService.DeleteUser UserService.NewUserServer UserService.twoUserStore
          { Id := 2 }).2 = .ok { Success := true } ∧
      (UserService.GetUser UserService.NewUserServer
          (UserService.DeleteUser UserService.NewUserServer UserService.twoUserStore
            { Id := 2 }).1 { Id := 2 }).2
        = .error { Code := .NotFound, Message := "user not found" }) ∧
    (MenuService.twoItemStore.lookup 2 = some MenuService.sandwichRow ∧
      (MenuService.DeleteMenuItem MenuService.NewMenuServer MenuService.twoItemStore
          { Id := 2 }).2 = .ok { Success := true } ∧
      (MenuService.GetMenuItem MenuService.NewMenuServer
          (MenuService.DeleteMenuItem MenuService.NewMenuServer MenuService.twoItemStore
            { Id := 2 }).1 { Id := 2 }).2
        = .error { Code := .NotFound, Message := "menu item not found" }) :=
  ⟨⟨by decide, by decide,
      ((delete_by_id.1 UserService.NewUserServer UserService.twoUserStore { Id := 9999 }
        (by decide)).1 (by decide)).1,
      ((delete_by_id.1 UserService.NewUserServer UserService.twoUserStore { Id := 9999 }
        (by decide)).1 (by decide)).2.1⟩,
    ⟨by decide,
      (delete_by_id.1 UserService.NewUserServer UserService.twoUserStore { Id := 2 }
        (by decide)).2 UserService.jane (by decide)⟩,
    ⟨by decide,
      (delete_by_id.2 MenuService.NewMenuServer MenuService.twoItemStore { Id := 2 }
        (by decide)).2 MenuService.sandwichRow (by decide)⟩⟩

/-- Witness for C14 (amended): an unknown id; user 2 overwritten with empty
values; user 2 given the email of user 1; menu item 2 overwritten with empty
values; and a save of the menu store that fails. -/
theorem update_outcomes_witness :
    (UserService.twoUserStore.lookup 9999 = none ∧
      (UserService.UpdateUser UserService.NewUserServer UserService.twoUserStore
          { Id := 9999 }).2
        = .error { Code := .NotFound, Message := "user not found" }) ∧
    (UserService.twoUserStore.lookup 2 = some UserService.jane ∧
      UserService.twoUserStore.emailTaken 2 "" = false ∧
      ∃ (r : userv1.User) (row : UserService.models.User),
        (UserService.UpdateUser UserService.NewUserServer UserService.twoUserStore
            UserService.blankUpdateRequest).2 = .ok { User := some r } ∧
        r.Id = 2 ∧ r.Name = "" ∧ r.Email = "" ∧ r.IsCafeOwner = false ∧
        (UserService.UpdateUser UserService.NewUserServer UserService.twoUserStore
            UserService.blankUpdateRequest).1.lookup 2 = some row ∧
        row.Name = "" ∧ row.Email = "" ∧ row.IsCafeOwner = false) ∧
    (UserService.twoUserStore.emailTaken 2 "john@example.com" = true ∧
      (UserService.UpdateUser UserService.NewUserServer UserService.twoUserStore
          UserService.emailClashRequest).2
        = .error { Code := .Internal,
                   Message := "failed to update user: "
                     ++ UserService.database.uniqueViolation }) ∧
    (MenuService.twoItemStore.lookup 2 = some MenuService.sandwichRow ∧
      ∃ (r : menuv1.MenuItem) (row : MenuService.models.MenuItem),
        (MenuService.UpdateMenuItem MenuService.NewMenuServer MenuService.twoItemStore
            MenuService.blankUpdateRequest).2 = .ok { MenuItem := some r } ∧
        r.Id = 2 ∧ r.Name = "" ∧ r.Description = "" ∧ r.Price = ⟨0⟩ ∧
        (MenuService.UpdateMenuItem MenuService.NewMenuServer MenuService.twoItemStore
            MenuService.blankUpdateRequest).1.lookup 2 = some row ∧
        row.Name = "" ∧ row.Description = "" ∧ row.Price = gorm.columnValue ⟨0⟩) ∧
    (MenuService.saveFailsStore.advance.fault = some "connection refused" ∧
      (MenuService.UpdateMenuItem MenuService.NewMenuServer MenuService.saveFailsStore
          MenuService.blankUpdateRequest).2
        = .error { Code := .Internal,
                   Message := "failed to update menu item: " ++ "connection refused" }) :=
  ⟨⟨by decide,
      (update_outcomes.1 UserService.NewUserServer UserService.twoUserStore { Id := 9999 }
        (by decide)).1 (Or.inr (by decide))⟩,
    ⟨by decide, by decide,
      ((update_outcomes.1 UserService.NewUserServer UserService.twoUserStore
        UserService.blankUpdateRequest (by decide)).2 UserService.jane (by decide)
        (by decide)).2.2 (by decide) (by decide)⟩,
    ⟨by decide,
      ((update_outcomes.1 UserService.NewUserServer UserService.twoUserStore
        UserService.emailClashRequest (by decide)).2 UserService.jane (by decide)
        (by decide)).2.1 (by decide) (by decide)⟩,
    ⟨by decide,
      ((update_outcomes.2 MenuService.NewMenuServer MenuService.twoItemStore
        MenuService.blankUpdateRequest (by decide)).2 MenuService.sandwichRow (by decide)
        (by decide)).2 (by decide)⟩,
    ⟨by decide,
      ((update_outcomes.2 MenuService.NewMenuServer MenuService.saveFailsStore
        MenuService.blankUpdateRequest (by decide)).2 MenuService.sandwichRow (by decide)
        (by decide)).1 "connection refused" (by decide)⟩⟩

/-- C14 as stated fails: the row exists and the store runs every statement,
yet `UpdateUser` returns the error `Internal`, since the new email is the one
of another user; and `UpdateMenuItem` returns `Internal` when the store runs
the lookup and fails the save. -/
theorem update_internal_outcome :
    (UserService.twoUserStore.faults = [] ∧
      (UserService.twoUserStore.lookup UserService.emailClashRequest.Id).isSome = true ∧
      (UserService.UpdateUser UserService.NewUserServer UserService.twoUserStore
          UserService.emailClashRequest).2
        = .error { Code := .Internal,
                   Message := "failed to update user: UNIQUE constraint failed: users.email" }) ∧
    ((MenuService.saveFailsStore.lookup MenuService.blankUpdateRequest.Id).isSome = true ∧
      (MenuService.UpdateMenuItem MenuService.NewMenuServer MenuService.saveFailsStore
          MenuService.blankUpdateRequest).2
        = .error { Code := .Internal,
                   Message := "failed to update menu item: connection refused" }) := by
  refine ⟨⟨by decide, by decide, by decide⟩, ⟨by decide, by decide⟩⟩

/-- Witness for C15 (amended): the first request of `TestCreateUser`. -/
theorem create_returns_record_witness :
    (UserService.database.Create {}
        { Name := UserService.johnRequest.Name, Email := UserService.johnRequest.Email,
          IsCafeOwner := UserService.johnRequest.IsCafeOwner }).2
      = .ok { ID := 1, Name := "John Doe", Email := "john@example.com" } ∧
    ∃ u : userv1.User,
      (UserService.CreateUser UserService.NewUserServer {} UserService.johnRequest).2
        = .ok { User := some u } ∧
      u.Name = UserService.johnRequest.Name ∧ u.Email = UserService.johnRequest.Email ∧
      u.IsCafeOwner = UserService.johnRequest.IsCafeOwner ∧
      (0 < ({} : UserService.database.Store).nextID →
        ({} : UserService.database.Store).nextID < 2 ^ 32 → u.Id ≠ 0) :=
  ⟨rfl,
    (create_returns_record.1 UserService.NewUserServer {} UserService.johnRequest).1
      { ID := 1, Name := "John Doe", Email := "john@example.com" } rfl⟩

/-- C15 as stated fails once the id sequence of the store stands at 2^32: the
create of the store succeeds, and the id of the returned record is zero. -/
theorem create_returns_zero_id :
    ((UserService.database.Create UserService.wrappedStore
        { Name := "John Doe", Email := "john@example.com" }).2
      = .ok { ID := 2 ^ 32, Name := "John Doe", Email := "john@example.com" } ∧
      (UserService.CreateUser UserService.NewUserServer UserService.wrappedStore
          UserService.johnRequest).2
        = .ok { User := some { Id := 0, Name := "John Doe", Email := "john@example.com",
                               IsCafeOwner := false, CreatedAt := "0", UpdatedAt := "0" } }) ∧
    ((MenuService.database.Create MenuService.wrappedStore
        { Name := "Coffee", Description := "Hot coffee", Price := price250 }).2
      = .ok { ID := 2 ^ 32, Name := "Coffee", Description := "Hot coffee", Price := price250 } ∧
      (MenuService.CreateMenuItem MenuService.NewMenuServer MenuService.wrappedStore
          MenuService.coffeeRequest).2
        = .ok { MenuItem := some { Id := 0, Name := "Coffee", Description := "Hot coffee",
                                   Price := price250, CreatedAt := "0", UpdatedAt := "0" } }) := by
  refine ⟨⟨rfl, by decide⟩, ⟨rfl, by decide⟩⟩

/-- Witness for C16 (amended): requests without a name on the empty stores. -/
theorem create_does_not_validate_witness :
    (({} : UserService.database.Store).fault = none ∧
      ∃ resp, (UserService.CreateUser UserService.NewUserServer {}
        UserService.blankRequest).2 = .ok resp) ∧
    (({} : MenuService.database.Store).fault = none ∧
      ∃ resp, (MenuService.CreateMenuItem MenuService.NewMenuServer {}
        MenuService.blankRequest).2 = .ok resp) :=
  ⟨⟨by decide,
      (create_does_not_validate.1 UserService.NewUserServer {} UserService.blankRequest).1
        (by decide) (by decide)⟩,
    ⟨by decide,
      (create_does_not_validate.2 MenuService.NewMenuServer {} MenuService.blankRequest).1
        (by decide)⟩⟩

/-- C16 as stated fails: a user without name and email and a menu item without
name are created; and when the store refuses the record, the error is
`Internal`, not a client-input error. -/
theorem create_accepts_blank_fields :
    (UserService.CreateUser UserService.NewUserServer {} UserService.blankRequest).2
      = .ok { User := some { Id := 1, Name := "", Email := "", IsCafeOwner := false,
                             CreatedAt := "0", UpdatedAt := "0" } } ∧
    (MenuService.CreateMenuItem MenuService.NewMenuServer {} MenuService.blankRequest).2
      = .ok { MenuItem := some { Id := 1, Name := "", Description := "", Price := ⟨0⟩,
                                 CreatedAt := "0", UpdatedAt := "0" } } ∧
    (UserService.CreateUser UserService.NewUserServer UserService.failingStore
        UserService.blankRequest).2
      = .error { Code := .Internal, Message := "failed to create user: connection refused" } ∧
    (UserService.CreateUser UserService.NewUserServer UserService.twoUserStore
        UserService.johnRequest).2
      = .error { Code := .Internal,
                 Message := "failed to create user: UNIQUE constraint failed: users.email" } := by
  refine ⟨by decide, by decide, by decide, by decide⟩

/-- Witness for C17: the three users of `TestGetUsers`, the two menu items of
`TestIntegration_UserAndMenuServices`, and two orders. -/
theorem list_all_entries_witness :
    (∃ resp, (UserService.GetUsers UserService.NewUserServer
        ((UserService.createUsers UserService.NewUserServer {} UserService.threeUsers).getD {})
        {}).2 = .ok resp ∧ resp.Users.length = UserService.threeUsers.length) ∧
    (∃ resp, (MenuService.GetMenuItems MenuService.NewMenuServer MenuService.twoItemStore
        {}).2 = .ok resp ∧
      resp.MenuItems.length = [MenuService.coffeeRequest, MenuService.sandwichRequest].length) ∧
    (∃ resp, (GetOrders testServer
        ((createOrders testServer emptyWorld [successRequest, emptyRequest]).getD emptyWorld)
        {}).2 = .ok resp ∧ resp.Orders.length = [successRequest, emptyRequest].length) ∧
    (UserService.GetUsers UserService.NewUserServer {} {}).2 = .ok { Users := [] } :=
  ⟨(list_all_entries.1 UserService.NewUserServer
      ((UserService.createUsers UserService.NewUserServer {} UserService.threeUsers).getD {})
      {} (by decide)).2.2 {} UserService.threeUsers (by decide) (by decide),
    (list_all_entries.2.1 MenuService.NewMenuServer MenuService.twoItemStore
      {} (by decide)).2.2 {} [MenuService.coffeeRequest, MenuService.sandwichRequest]
      (by decide) (by decide),
    (list_all_entries.2.2 Nat testServer
      ((createOrders testServer emptyWorld [successRequest, emptyRequest]).getD emptyWorld)
      {} (by decide)).2.2 emptyWorld [successRequest, emptyRequest] (by decide) (by decide),
    (list_all_entries.1 UserService.NewUserServer {} {} (by decide)).2.1 (by decide)⟩

end Services
